import Mathlib

/-!
# Order management platform: order lifecycle and event pipeline

A shallow embedding of the Go packages `internal/domain`, `internal/repository`,
`internal/kafka` and `internal/service` and of the create-order handler of
`cmd/order-api`, followed by theorems about them.

Conventions of the embedding.

* A `float64` is a value of `F64`: finite values are whole numbers of units of
  `2^-1074` with a sign, and there are the infinities and NaN.  Arithmetic is
  the exact operation followed by rounding to nearest, ties to even; whether
  `total += x * y` rounds the product (`Float64.fused`) is a parameter.
* A Go `int` is an integer (`Int`); `o.Version++` wraps around at the ends of
  the 64-bit range.
* `time.Time` is an integer count of nanoseconds (the values compared are all
  UTC wall-clock readings).
* `uuid.New()`, `time.Now()`, the outcome of each database call and the
  outcome of each write to the message bus are answers of the environment
  (`Env`), indexed by the number of earlier calls of the same kind.
* Pointer receivers that mutate (`o.Confirm()`) become functions returning the
  new value.
* Libraries are parameters (`JSON`, `Feed`) or are written down from their
  documentation where a theorem needs their behaviour
  (`Consumer.ReadMessage`).  What kafka-go does with the address given to a
  writer is not modelled: a write is taken to reach the bus, which answers.
* The consumption loop never returns by itself; it is run for a number of
  passes (`fuel`).
-/

/-- A Go `error` value: `fmt.Errorf` without `%w` builds `errorString`,
with `%w` it builds `wrapError` around the cause. -/
inductive GoError where
  | errorString (s : String)
  | wrapError (context : String) (err : GoError)
  deriving DecidableEq, Repr

/-- The message of an error: `err.Error()`. -/
def GoError.Error : GoError → String
  | .errorString s => s
  | .wrapError context err => context ++ ": " ++ err.Error

/-- The error directly wrapped by this one: `errors.Unwrap`. -/
def GoError.Unwrap : GoError → Option GoError
  | .errorString _ => none
  | .wrapError _ err => some err

/-- Wall-clock instants, in nanoseconds. -/
abbrev Time := Int

/-- Byte strings carried by bus messages. -/
abbrev Bytes := String

/-- A Go `float64`.  A finite value is a sign and a magnitude counted in units
of `2^-1074`, the smallest positive float64: every finite float64 is a whole
number of these units.  The two zeros, the two infinities and NaN are there. -/
inductive F64 where
  | finite (neg : Bool) (units : Nat)
  | inf (neg : Bool)
  | nan
  deriving DecidableEq, Repr

namespace F64

/-- One step of the search for the highest binary digit: `p.1` is what is
left of the number and `p.2` the number of digits already dropped from its
low end; `k` more digits are dropped when something is left above them. -/
def bitStep (p : Nat × Nat) (k : Nat) : Nat × Nat :=
  if p.1 >>> k = 0 then p else (p.1 >>> k, p.2 + k)

/-- Number of binary digits of `n`, for `n` below `2^8192`. -/
def bitLength (n : Nat) : Nat :=
  let p := [4096, 2048, 1024, 512, 256, 128, 64, 32, 16, 8, 4, 2, 1].foldl bitStep (n, 0)
  if p.1 = 0 then p.2 else p.2 + 1

/-- The float64 nearest to `± mag × 2^-(1074 + extra)`, ties going to the even
significand: at most 53 significant binary digits are kept, none below the
unit `2^-1074`, and a result of `2^1024` or more is an infinity. -/
def round (neg : Bool) (mag : Nat) (extra : Nat) : F64 :=
  if mag >>> 8000 = 0 then
    let shift := max (bitLength mag - 53) extra
    let q := mag >>> shift
    let rest := mag - (q <<< shift)
    let half := if shift = 0 then 0 else 1 <<< (shift - 1)
    let q :=
      if shift = 0 then q
      else if rest > half then q + 1
      else if rest = half ∧ q % 2 = 1 then q + 1
      else q
    let units := q <<< (shift - extra)
    if units >>> 2098 = 0 then finite neg units else inf neg
  else inf neg

/-- Whether a whole number `u` of units `2^-1074` is the magnitude of a finite
float64: it is below `2^1024` and has at most 53 significant binary digits. -/
def representable (u : Nat) : Bool :=
  decide (u >>> 2098 = 0) &&
    decide ((u >>> (bitLength u - 53)) <<< (bitLength u - 53) = u)

/-- The float64 nearest to a natural number: how a numeral is read. -/
def ofNat (n : Nat) : F64 := round false (n <<< 1074) 0

instance (n : Nat) : OfNat F64 n := ⟨ofNat n⟩

/-- The conversion `float64(n)` of a Go `int`. -/
def ofInt (n : Int) : F64 := round (decide (n < 0)) (n.natAbs <<< 1074) 0

/-- float64 multiplication: the exact product, rounded. -/
def mul : F64 → F64 → F64
  | nan, _ => nan
  | _, nan => nan
  | inf a, inf b => inf (a != b)
  | inf a, finite b n => if n = 0 then nan else inf (a != b)
  | finite a n, inf b => if n = 0 then nan else inf (a != b)
  | finite a n, finite b m => round (a != b) (n * m) 1074

/-- float64 addition: the exact sum, rounded; an exact sum of zero is `+0`
unless both terms are `-0`. -/
def add : F64 → F64 → F64
  | nan, _ => nan
  | _, nan => nan
  | inf a, inf b => if a = b then inf a else nan
  | inf a, finite _ _ => inf a
  | finite _ _, inf b => inf b
  | finite a n, finite b m =>
    if a = b then round a (n + m) 0
    else if n = m then finite false 0
    else if n > m then round a (n - m) 0
    else round b (m - n) 0

/-- Fused multiply-add, `x * y + z` with one rounding at the end. -/
def fma : F64 → F64 → F64 → F64
  | finite a n, finite b m, finite c k =>
    let p := n * m
    let z := k <<< 1074
    if (a != b) = c then round c (p + z) 1074
    else if p = z then finite false 0
    else if p > z then round (a != b) (p - z) 1074
    else round c (z - p) 1074
  | finite _ _, finite _ _, inf c => inf c
  | finite _ _, finite _ _, nan => nan
  | x, y, z => add (mul x y) z

/-- float64 division: the exact quotient, rounded. -/
def div : F64 → F64 → F64
  | nan, _ => nan
  | _, nan => nan
  | inf _, inf _ => nan
  | inf a, finite b _ => inf (a != b)
  | finite a _, inf b => finite (a != b) 0
  | finite a n, finite b m =>
    if m = 0 then (if n = 0 then nan else inf (a != b))
    else
      let num := n <<< 2274
      let sticky := if num % m = 0 then 0 else 1
      round (a != b) (2 * (num / m) + sticky) 1201

/-- Sign change. -/
def neg : F64 → F64
  | finite a n => finite (!a) n
  | inf a => inf (!a)
  | nan => nan

instance : Mul F64 := ⟨mul⟩
instance : Add F64 := ⟨add⟩
instance : Div F64 := ⟨div⟩
instance : Neg F64 := ⟨neg⟩

/-- The value of a finite float64, in units of `2^-1074`. -/
def key (neg : Bool) (units : Nat) : Int := if neg then -(units : Int) else units

/-- Go's `x < y` on float64: false as soon as one side is NaN. -/
def lt : F64 → F64 → Bool
  | nan, _ => false
  | _, nan => false
  | inf a, inf b => a && !b
  | inf a, finite _ _ => a
  | finite _ _, inf b => !b
  | finite a n, finite b m => decide (key a n < key b m)

/-- Go's `x <= y` on float64. -/
def le : F64 → F64 → Bool
  | nan, _ => false
  | _, nan => false
  | inf a, inf b => a || !b
  | inf a, finite _ _ => a
  | finite _ _, inf b => !b
  | finite a n, finite b m => decide (key a n ≤ key b m)

instance : LT F64 := ⟨fun a b => lt a b = true⟩
instance : LE F64 := ⟨fun a b => le a b = true⟩
instance (a b : F64) : Decidable (a < b) := inferInstanceAs (Decidable (lt a b = true))
instance (a b : F64) : Decidable (a ≤ b) := inferInstanceAs (Decidable (le a b = true))

/-- Whether the value is neither an infinity nor NaN. -/
def isFinite : F64 → Bool
  | finite _ _ => true
  | _ => false

/-- The value of a finite float64 in units of `2^-1074`; nothing for an
infinity or NaN. -/
def units? : F64 → Option Int
  | finite a n => some (key a n)
  | _ => none

end F64

/-- How the compiler treats `total += x * y`.  Go lets it either round the
product and then the sum, or fuse the two operations and round once. -/
structure Float64 where
  fused : Bool
  deriving DecidableEq

/-- Separate multiplication and addition, as on amd64. -/
def Float64.separate : Float64 := { fused := false }

/-- Fused multiply-add, as the compiler emits it on arm64. -/
def Float64.fusedMulAdd : Float64 := { fused := true }

/-- float64 addition. -/
def fadd (x y : F64) : F64 := x + y

/-- float64 multiplication. -/
def fmul (x y : F64) : F64 := x * y

/-- The conversion `float64(n)` of a Go `int`. -/
def float64 (n : Int) : F64 := F64.ofInt n

/-- Go `int` arithmetic on a 64-bit platform: a result outside the range
`-2^63 … 2^63 - 1` wraps around. -/
def wrapInt64 (x : Int) : Int := (x + 9223372036854775808) % 18446744073709551616 - 9223372036854775808

namespace domain

/-- Go: `type OrderStatus string`. -/
abbrev OrderStatus := String

def OrderStatusPending : OrderStatus := "PENDING"
def OrderStatusConfirmed : OrderStatus := "CONFIRMED"
def OrderStatusFailed : OrderStatus := "FAILED"
def OrderStatusDelivered : OrderStatus := "DELIVERED"
def OrderStatusCancelled : OrderStatus := "CANCELLED"

structure OrderItem where
  ID : String
  ItemID : String
  Name : String
  Price : F64
  Quantity : Int
  deriving DecidableEq

/-- The aggregate.  `Version` is a Go `int`. -/
structure Order where
  ID : String
  UserID : String
  RestaurantID : String
  Items : List OrderItem
  TotalAmount : F64
  Status : OrderStatus
  CreatedAt : Time
  UpdatedAt : Time
  Version : Int
  deriving DecidableEq

/-- The body of the loop of `NewOrder`: `total += item.Price * float64(item.Quantity)`. -/
def accumulate (fp : Float64) (total : F64) (item : OrderItem) : F64 :=
  if fp.fused then F64.fma item.Price (float64 item.Quantity) total
  else fadd total (fmul item.Price (float64 item.Quantity))

/-- The loop of `NewOrder`: `for _, item := range items { total += item.Price * float64(item.Quantity) }`
started from `var total float64`. -/
def totalLoop (fp : Float64) (items : List OrderItem) : F64 :=
  items.foldl (accumulate fp) 0

/-- Go: `NewOrder(userID, restaurantID, items)`.  `id` is the value of
`uuid.New().String()` and `now` the value of `time.Now().UTC()` in this call.
The Go function has result type `(*Order, error)`; its only `return` gives a
nil error. -/
def NewOrder (fp : Float64) (id : String) (now : Time)
    (userID restaurantID : String) (items : List OrderItem) : Except GoError Order :=
  let total := totalLoop fp items
  .ok {
    ID := id
    UserID := userID
    RestaurantID := restaurantID
    Items := items
    TotalAmount := total
    Status := OrderStatusPending
    CreatedAt := now
    UpdatedAt := now
    Version := 1 }

/-- Go: `(o *Order) Confirm()`; `now` is the value of `time.Now().UTC()`. -/
def Order.Confirm (now : Time) (o : Order) : Order :=
  { o with Status := OrderStatusConfirmed, UpdatedAt := now, Version := wrapInt64 (o.Version + 1) }

/-- Go: `(o *Order) Fail()`. -/
def Order.Fail (now : Time) (o : Order) : Order :=
  { o with Status := OrderStatusFailed, UpdatedAt := now, Version := wrapInt64 (o.Version + 1) }

/-- Go: `(o *Order) Cancel()`. -/
def Order.Cancel (now : Time) (o : Order) : Order :=
  { o with Status := OrderStatusCancelled, UpdatedAt := now, Version := wrapInt64 (o.Version + 1) }

/-- Specification side of one line of the sum: the float64 value of
`total + Price × Quantity`, the product being rounded before the addition
unless the machine fuses the two operations. -/
def lineSum (fp : Float64) (total : F64) (item : OrderItem) : F64 :=
  if fp.fused then F64.fma item.Price (F64.ofInt item.Quantity) total
  else total + item.Price * F64.ofInt item.Quantity

/-- Specification side of the total: the float64 sum of the first `k` lines,
taken in list order: line `k` is added to the sum of the lines before it. -/
def sumInListOrder (fp : Float64) (items : List OrderItem) : Nat → F64
  | 0 => 0
  | k + 1 =>
    match items.get? k with
    | some item => lineSum fp (sumInListOrder fp items k) item
    | none => sumInListOrder fp items k

/-- Specification side of the total: the exact sum `Σ Price × Quantity` of
items with finite prices, in units of `2^-1074` (the quantity is a whole
number, so the sum is a whole number of units). -/
def exactSum : List OrderItem → Int
  | [] => 0
  | item :: rest => (item.Price.units?.getD 0) * item.Quantity + exactSum rest

/-- The exact result of one step of the loop, in units of `2^-1074`: the value
of the total so far plus `Price × Quantity`; nothing when the total or the
price is not finite. -/
def exactStep (total : F64) (item : OrderItem) : Option Int :=
  match total.units?, item.Price.units? with
  | some t, some p => some (t + p * item.Quantity)
  | _, _ => none

/-- Specification side: a condition on the exact numbers under which nothing
is rounded.  Prices and quantities are not negative, and every quantity, every
product `Price × Quantity` and every partial sum, from the total `t` (in units
of `2^-1074`) on, is itself a float64. -/
def exactlySummable : Nat → List OrderItem → Bool
  | _, [] => true
  | t, item :: rest =>
    match item.Price with
    | .finite false n =>
      decide (0 ≤ item.Quantity) &&
        F64.representable (item.Quantity.toNat <<< 1074) &&
        F64.representable (n * item.Quantity.toNat) &&
        F64.representable (t + n * item.Quantity.toNat) &&
        exactlySummable (t + n * item.Quantity.toNat) rest
    | _ => false

/-- No line of the sum has to be rounded: from the total `total` on, the
float64 value of every line sum is finite and is the exact value of the total
before it plus `Price × Quantity`. -/
def noRounding (fp : Float64) : F64 → List OrderItem → Bool
  | _, [] => true
  | total, item :: rest =>
    (lineSum fp total item).isFinite &&
      decide ((lineSum fp total item).units? = exactStep total item) &&
      noRounding fp (lineSum fp total item) rest

/-- Go: `type EventType string`. -/
abbrev EventType := String

def OrderCreatedEventType : EventType := "OrderCreated"
def OrderConfirmedEventType : EventType := "OrderConfirmed"
def OrderFailedEventType : EventType := "OrderFailed"
def OrderCancelledEventType : EventType := "OrderCancelled"

structure OrderCreatedEvent where
  EventID : String
  OrderID : String
  UserID : String
  RestaurantID : String
  Items : List OrderItem
  TotalAmount : F64
  CreatedAt : Time
  deriving DecidableEq

structure OrderConfirmedEvent where
  EventID : String
  OrderID : String
  ConfirmedAt : Time
  deriving DecidableEq

structure OrderFailedEvent where
  EventID : String
  OrderID : String
  Reason : String
  FailedAt : Time
  deriving DecidableEq

/-- The implementations of the Go interface `Event`. -/
inductive Event where
  | created (e : OrderCreatedEvent)
  | confirmed (e : OrderConfirmedEvent)
  | failed (e : OrderFailedEvent)
  deriving DecidableEq

def Event.AggregateID : Event → String
  | .created e => e.OrderID
  | .confirmed e => e.OrderID
  | .failed e => e.OrderID

def Event.EventType : Event → EventType
  | .created _ => OrderCreatedEventType
  | .confirmed _ => OrderConfirmedEventType
  | .failed _ => OrderFailedEventType

def Event.Timestamp : Event → Time
  | .created e => e.CreatedAt
  | .confirmed e => e.ConfirmedAt
  | .failed e => e.FailedAt

/-- Go: `NewOrderCreatedEvent(order)`; `eventID` is the value of `uuid.New().String()`. -/
def NewOrderCreatedEvent (eventID : String) (order : Order) : OrderCreatedEvent :=
  { EventID := eventID
    OrderID := order.ID
    UserID := order.UserID
    RestaurantID := order.RestaurantID
    Items := order.Items
    TotalAmount := order.TotalAmount
    CreatedAt := order.CreatedAt }

/-- Go: `NewOrderConfirmedEvent(orderID)`. -/
def NewOrderConfirmedEvent (eventID : String) (now : Time) (orderID : String) :
    OrderConfirmedEvent :=
  { EventID := eventID, OrderID := orderID, ConfirmedAt := now }

/-- Go: `NewOrderFailedEvent(orderID, reason)`. -/
def NewOrderFailedEvent (eventID : String) (now : Time) (orderID reason : String) :
    OrderFailedEvent :=
  { EventID := eventID, OrderID := orderID, Reason := reason, FailedAt := now }

end domain

/-! ## The world outside the process -/

namespace logger

/-- Go: `type Logger struct { level Level }`. -/
structure Logger where
  level : String
  deriving DecidableEq

/-- One line written by the logger; the `fields` argument and the time stamp
of the line are not kept. -/
structure Entry where
  Level : String
  Message : String
  deriving DecidableEq

end logger

namespace repository

/-- A row of table `orders`, with the columns the `INSERT` of `CreateOrder` names. -/
structure OrderRow where
  id : String
  user_id : String
  restaurant_id : String
  total_amount : F64
  status : String
  created_at : Time
  updated_at : Time
  version : Int
  deriving DecidableEq

/-- A row of table `order_items`. -/
structure OrderItemRow where
  id : String
  order_id : String
  item_id : String
  name : String
  price : F64
  quantity : Int
  created_at : Time
  deriving DecidableEq

/-- The two tables, rows in insertion order. -/
structure Database where
  orders : List OrderRow
  order_items : List OrderItemRow
  deriving DecidableEq

end repository

namespace kafka

def OrdersTopic : String := "orders"
def OrderStatusTopic : String := "order-status"

/-- Go: `kafka.Message`, with the fields the program sets. -/
structure Message where
  Topic : String
  Key : String
  Value : Bytes
  deriving DecidableEq

/-- One call of `writer.WriteMessages`: the broker address of the writer, the
message, the outcome the bus gave, and (for reference) the event whose
encoding is `msg.Value`. -/
structure BusWrite where
  addr : String
  msg : Message
  event : domain.Event
  err : Option GoError
  deriving DecidableEq

end kafka

/-- State of everything outside the process that the code reads or changes. -/
structure World where
  /-- Contents of the relational store. -/
  db : repository.Database
  /-- Number of database calls whose outcome was asked of the environment. -/
  dbCalls : Nat
  /-- Every `WriteMessages` call so far, oldest first. -/
  writes : List kafka.BusWrite
  /-- Every line logged so far, oldest first. -/
  logs : List logger.Entry
  /-- Number of `uuid.New()` calls so far. -/
  uuids : Nat
  /-- Number of `time.Now()` calls so far. -/
  clock : Nat

/-- The answers of the environment. -/
structure Env where
  /-- The float64 arithmetic of the machine. -/
  fp : Float64
  /-- The identifier returned by the `n`-th call of `uuid.New().String()`. -/
  uuid : Nat → String
  /-- The reading returned by the `n`-th call of `time.Now().UTC()`. -/
  now : Nat → Time
  /-- The value of SQL `NOW()` in the `k`-th database call. -/
  dbNow : Nat → Time
  /-- The failure, if any, of the `k`-th database call. -/
  dbErr : Nat → Option GoError
  /-- The failure, if any, of the `k`-th `WriteMessages` call. -/
  busErr : Nat → Option GoError

/-- Package `encoding/json` on the types the program encodes and decodes.
`json.Marshal` of an `OrderCreatedEvent` can fail (it refuses a number that
is not finite, and the total and the prices are float64), so it has an error
result; on the two other event structs, which hold strings and a reading of
the clock, it is taken as a total function.  `json.Unmarshal` can fail on the
bytes it is given.  No law relates encoding and decoding. -/
structure JSON where
  MarshalCreated : domain.OrderCreatedEvent → Except GoError Bytes
  MarshalConfirmed : domain.OrderConfirmedEvent → Bytes
  MarshalFailed : domain.OrderFailedEvent → Bytes
  UnmarshalCreated : Bytes → Except GoError domain.OrderCreatedEvent

/-- A call of `uuid.New().String()`. -/
def uuidNew (env : Env) (w : World) : String × World :=
  (env.uuid w.uuids, { w with uuids := w.uuids + 1 })

/-- A call of `time.Now().UTC()`. -/
def timeNow (env : Env) (w : World) : Time × World :=
  (env.now w.clock, { w with clock := w.clock + 1 })

/-- The messages the bus has accepted on a topic, oldest first. -/
def World.topic (w : World) (name : String) : List kafka.Message :=
  (w.writes.filter fun bw => bw.err.isNone && bw.msg.Topic == name).map fun bw => bw.msg

namespace logger

def Debug : String := "DEBUG"
def Info : String := "INFO"
def Warn : String := "WARN"
def Error : String := "ERROR"

/-- Go: `(l *Logger) log(level, msg, fields...)`. -/
def Logger.log (_l : Logger) (w : World) (level msg : String) : World :=
  { w with logs := w.logs ++ [{ Level := level, Message := msg }] }

/-- Go: `(l *Logger) Debug`, which writes only at level DEBUG. -/
def Logger.Debug (l : Logger) (w : World) (msg : String) : World :=
  if l.level = logger.Debug then l.log w logger.Debug msg else w

def Logger.Info (l : Logger) (w : World) (msg : String) : World := l.log w logger.Info msg

def Logger.Warn (l : Logger) (w : World) (msg : String) : World := l.log w logger.Warn msg

def Logger.Error (l : Logger) (w : World) (msg : String) : World := l.log w logger.Error msg

end logger

namespace repository

/-- Go: `type OrderRepository struct { db *sql.DB }`; the database it points
to is `World.db`. -/
structure OrderRepository where
  deriving DecidableEq

/-- The row the first `INSERT` of `CreateOrder` writes. -/
def orderRow (order : domain.Order) : OrderRow :=
  { id := order.ID
    user_id := order.UserID
    restaurant_id := order.RestaurantID
    total_amount := order.TotalAmount
    status := order.Status
    created_at := order.CreatedAt
    updated_at := order.UpdatedAt
    version := order.Version }

/-- The row the `INSERT` of the items loop writes for one item. -/
def itemRow (order : domain.Order) (item : domain.OrderItem) : OrderItemRow :=
  { id := item.ID
    order_id := order.ID
    item_id := item.ItemID
    name := item.Name
    price := item.Price
    quantity := item.Quantity
    created_at := order.CreatedAt }

/-- The items loop of `CreateOrder`, inside the transaction: `tx` is the
database as the transaction sees it and `calls` the number of database calls
made so far.  The first failing `INSERT` ends the loop with the wrapped
error. -/
def insertItems (env : Env) (order : domain.Order) :
    List domain.OrderItem → Database → Nat → Nat × Except GoError Database
  | [], tx, calls => (calls, .ok tx)
  | item :: rest, tx, calls =>
    match env.dbErr calls with
    | some err => (calls + 1, .error (.wrapError ("insert order item " ++ item.ID) err))
    | none =>
      insertItems env order rest
        { tx with order_items := tx.order_items ++ [itemRow order item] } (calls + 1)

/-- Go: `(r *OrderRepository) CreateOrder(ctx, order)`.  The deferred
`tx.Rollback()` discards the transaction's view on every error path (its own
result is ignored), and does nothing after a successful commit. -/
def OrderRepository.CreateOrder (_r : OrderRepository) (env : Env) (w : World)
    (order : domain.Order) : World × Option GoError :=
  -- tx, err := r.db.BeginTx(ctx, nil)
  match env.dbErr w.dbCalls with
  | some err => ({ w with dbCalls := w.dbCalls + 1 }, some (.wrapError "start tx" err))
  | none =>
    -- Insert order
    match env.dbErr (w.dbCalls + 1) with
    | some err => ({ w with dbCalls := w.dbCalls + 2 }, some (.wrapError "insert order" err))
    | none =>
      let tx : Database := { w.db with orders := w.db.orders ++ [orderRow order] }
      -- Insert items
      match insertItems env order order.Items tx (w.dbCalls + 2) with
      | (calls, .error err) => ({ w with dbCalls := calls }, some err)
      | (calls, .ok tx) =>
        -- tx.Commit()
        match env.dbErr calls with
        | some err => ({ w with dbCalls := calls + 1 }, some (.wrapError "commit tx" err))
        | none => ({ w with db := tx, dbCalls := calls + 1 }, none)

/-- The effect of the `UPDATE` of `UpdateOrderStatus` on one row. -/
def updateRow (orderID : String) (status : domain.OrderStatus) (now : Time)
    (row : OrderRow) : OrderRow :=
  if row.id = orderID then
    { row with status := status, updated_at := now, version := row.version + 1 }
  else row

/-- Go: `(r *OrderRepository) UpdateOrderStatus(ctx, orderID, status)`:
`UPDATE orders SET status = $1, updated_at = NOW(), version = version + 1 WHERE id = $2`,
whose error is returned as it is.  The schema is not among the sources: column
`version` is an integer without bound, and a statement the database refuses is
a failure of the call (`Env.dbErr`). -/
def OrderRepository.UpdateOrderStatus (_r : OrderRepository) (env : Env) (w : World)
    (orderID : String) (status : domain.OrderStatus) : World × Option GoError :=
  match env.dbErr w.dbCalls with
  | some err => ({ w with dbCalls := w.dbCalls + 1 }, some err)
  | none =>
    ({ w with
        db := { w.db with
          orders := w.db.orders.map (updateRow orderID status (env.dbNow w.dbCalls)) }
        dbCalls := w.dbCalls + 1 }, none)

end repository

namespace kafka

/-- Go: `type Producer struct { writer *kafka.Writer; logger *logger.Logger }`;
of the writer only the broker address is kept. -/
structure Producer where
  brokers : String
  logger : logger.Logger
  deriving DecidableEq

/-- Go: `NewProducer(brokers, l)`. -/
def NewProducer (brokers : String) (l : logger.Logger) : Producer :=
  { brokers := brokers, logger := l }

/-- Go: `p.writer.WriteMessages(ctx, msg)`: the bus answers with the outcome
of this write.  The write is recorded with the address of the writer; what the
library does with that address is not modelled. -/
def Producer.WriteMessages (p : Producer) (env : Env) (w : World) (msg : Message)
    (event : domain.Event) : World × Option GoError :=
  let err := env.busErr w.writes.length
  ({ w with writes := w.writes ++ [{ addr := p.brokers, msg := msg, event := event, err := err }] },
    err)

/-- Go: `(p *Producer) PublishOrderCreated(ctx, event)`. -/
def Producer.PublishOrderCreated (p : Producer) (env : Env) (js : JSON) (w : World)
    (event : domain.OrderCreatedEvent) : World × Option GoError :=
  match js.MarshalCreated event with
  | .error err => (p.logger.Error w "Failed to marshal OrderCreatedEvent", some err)
  | .ok payload =>
    let msg : Message := { Topic := OrdersTopic, Key := event.OrderID, Value := payload }
    match p.WriteMessages env w msg (.created event) with
    | (w, some err) => (p.logger.Error w "Failed to publish OrderCreatedEvent", some err)
    | (w, none) => (p.logger.Info w "OrderCreatedEvent published", none)

/-- Go: `(p *Producer) PublishOrderConfirmed(ctx, event)`.  The `err != nil`
branch after `json.Marshal` is left out: the event holds two strings and a
reading of the clock, which `json.Marshal` always encodes (see `JSON`). -/
def Producer.PublishOrderConfirmed (p : Producer) (env : Env) (js : JSON) (w : World)
    (event : domain.OrderConfirmedEvent) : World × Option GoError :=
  let payload := js.MarshalConfirmed event
  let msg : Message := { Topic := OrderStatusTopic, Key := event.OrderID, Value := payload }
  match p.WriteMessages env w msg (.confirmed event) with
  | (w, some err) => (p.logger.Error w "Failed to publish OrderConfirmedEvent", some err)
  | (w, none) => (p.logger.Info w "OrderConfirmedEvent published", none)

/-- Go: `(p *Producer) PublishedOrderFailed(ctx, event)`.  The `err != nil`
branch after `json.Marshal` is left out: the event holds three strings and a
reading of the clock, which `json.Marshal` always encodes (see `JSON`). -/
def Producer.PublishedOrderFailed (p : Producer) (env : Env) (js : JSON) (w : World)
    (event : domain.OrderFailedEvent) : World × Option GoError :=
  let payload := js.MarshalFailed event
  let msg : Message := { Topic := OrderStatusTopic, Key := event.OrderID, Value := payload }
  match p.WriteMessages env w msg (.failed event) with
  | (w, some err) => (p.logger.Error w "Failed to publish OrderFailedEvent", some err)
  | (w, none) => (w, none)

/-- Go: `kafka.ReaderConfig`, with the fields `NewConsumer` sets. -/
structure ReaderConfig where
  Brokers : List String
  GroupID : String
  Topic : String
  MinBytes : Nat
  MaxBytes : Nat
  CommitInterval : Nat
  deriving DecidableEq

/-- Go: `type Consumer struct`; the reader is kept as its configuration. -/
structure Consumer where
  reader : ReaderConfig
  logger : logger.Logger
  repo : repository.OrderRepository
  deriving DecidableEq

/-- Go: `NewConsumer(brokers, groupID, l, repo, db)`. -/
def NewConsumer (brokers groupID : String) (l : logger.Logger)
    (repo : repository.OrderRepository) : Consumer :=
  { reader :=
      { Brokers := [brokers]
        GroupID := groupID
        Topic := OrdersTopic
        MinBytes := 10000
        MaxBytes := 10000000
        CommitInterval := 1 }
    logger := l
    repo := repo }

/-- The status `handleOrderCreated` chooses for an event, with the warning it
logs on the way: the `if event.TotalAmount < 100 … else if event.TotalAmount > 50000 … else …`
chain. -/
def Consumer.chooseStatus (c : Consumer) (w : World) (event : domain.OrderCreatedEvent) :
    domain.OrderStatus × World :=
  if event.TotalAmount < 100 then
    (domain.OrderStatusFailed, c.logger.Warn w "Order rejected: amount too low")
  else if event.TotalAmount > 50000 then
    (domain.OrderStatusFailed, c.logger.Warn w "Order rejected: amount too high")
  else
    (domain.OrderStatusConfirmed, w)

/-- Go: `(c *Consumer) handleOrderCreated(ctx, msg)`.  The function has no
result; it returns on every path.  The deferred `producer.Close()` changes
nothing that is modelled. -/
def Consumer.handleOrderCreated (c : Consumer) (env : Env) (js : JSON) (w : World)
    (msg : Message) : World :=
  match js.UnmarshalCreated msg.Value with
  | .error _ => c.logger.Error w "Failed to unmarshal OrderCreatedEvent"
  | .ok event =>
    let w := c.logger.Info w "Processing OrderCreatedEvent"
    let (newStatus, w) := c.chooseStatus w event
    match c.repo.UpdateOrderStatus env w event.OrderID newStatus with
    | (w, some _) => c.logger.Error w "Failed to update order status"
    | (w, none) =>
      -- Publishing Event
      let producer := NewProducer "localhost:9092,localhost:9094" c.logger
      if newStatus = domain.OrderStatusConfirmed then
        let (eventID, w) := uuidNew env w
        let (now, w) := timeNow env w
        let confirmEvent := domain.NewOrderConfirmedEvent eventID now event.OrderID
        match producer.PublishOrderConfirmed env js w confirmEvent with
        | (w, some _) => c.logger.Error w "Failed to publish confirmation"
        | (w, none) => w
      else
        let (eventID, w) := uuidNew env w
        let (now, w) := timeNow env w
        let failEvent := domain.NewOrderFailedEvent eventID now event.OrderID "Validation Failed"
        match producer.PublishedOrderFailed env js w failEvent with
        | (w, some _) => c.logger.Error w "Failed to publish failure"
        | (w, none) => w

end kafka

namespace service

/-- Go: `type OrderService struct`. -/
structure OrderService where
  repo : repository.OrderRepository
  producer : kafka.Producer
  logger : logger.Logger
  deriving DecidableEq

/-- Go: `NewOrderService(repo, producer, l)`. -/
def NewOrderService (repo : repository.OrderRepository) (producer : kafka.Producer)
    (l : logger.Logger) : OrderService :=
  { repo := repo, producer := producer, logger := l }

/-- The loop `for i := range items { if items[i].ID == "" { items[i].ID = uuid.New().String() } }`
of `CreateOrder`. -/
def assignItemIDs (env : Env) : List domain.OrderItem → World → List domain.OrderItem × World
  | [], w => ([], w)
  | item :: rest, w =>
    if item.ID = "" then
      let (id, w) := uuidNew env w
      let (rest, w) := assignItemIDs env rest w
      ({ item with ID := id } :: rest, w)
    else
      let (rest, w) := assignItemIDs env rest w
      (item :: rest, w)

/-- Go: `(s *OrderService) CreateOrder(ctx, userID, restaurantID, items)`;
the result `(nil, err)` is `.error err` and `(order, nil)` is `.ok order`. -/
def OrderService.CreateOrder (s : OrderService) (env : Env) (js : JSON) (w : World)
    (userID restaurantID : String) (items : List domain.OrderItem) :
    World × Except GoError domain.Order :=
  if userID = "" ∨ restaurantID = "" then
    (w, .error (.errorString "invalid user_id or restaurant_id"))
  else if items.length = 0 then
    (w, .error (.errorString "order must have at least one item"))
  else
    let (items, w) := assignItemIDs env items w
    -- Create Order and save in DB
    let (now, w) := timeNow env w
    let (id, w) := uuidNew env w
    match domain.NewOrder env.fp id now userID restaurantID items with
    | .error err => (s.logger.Error w "Failed to create order", .error err)
    | .ok order =>
      match s.repo.CreateOrder env w order with
      | (w, some err) => (s.logger.Error w "Failed to save order to database", .error err)
      | (w, none) =>
        -- Publish event
        let (eventID, w) := uuidNew env w
        let event := domain.NewOrderCreatedEvent eventID order
        match s.producer.PublishOrderCreated env js w event with
        | (w, some _) => (s.logger.Error w "Failed to publish order creation event", .ok order)
        | (w, none) => (w, .ok order)

/-- The order that `CreateOrder` builds once its input checks have passed
(identifiers given to the items, then `domain.NewOrder`), with the world at
the moment the order is handed to the repository. -/
def buildOrder (env : Env) (w : World) (userID restaurantID : String)
    (items : List domain.OrderItem) : Except GoError domain.Order × World :=
  let (items, w) := assignItemIDs env items w
  let (now, w) := timeNow env w
  let (id, w) := uuidNew env w
  (domain.NewOrder env.fp id now userID restaurantID items, w)

end service

namespace kafka

/-- What the consumption loop is given from outside: `done n` tells whether
the context is seen cancelled at the start of pass `n`, and `fetch n` is the
outcome of fetching the next message of the topic in pass `n`. -/
structure Feed where
  done : Nat → Bool
  fetch : Nat → Except GoError Message

/-- State of the consumer group's reader: the messages whose offsets have been
handed over for commit, oldest first. -/
structure ReaderState where
  commits : List Message
  deriving DecidableEq

/-- Library `segmentio/kafka-go`, `(*Reader).ReadMessage`: `FetchMessage`
followed, when the reader belongs to a consumer group (`GroupID` not empty),
by `CommitMessages` for the message fetched.  With a non-zero
`CommitInterval` the offset is handed to the reader's periodic commit and the
call does not wait for the broker. -/
def Consumer.ReadMessage (c : Consumer) (feed : Feed) (pass : Nat) (rs : ReaderState) :
    ReaderState × Except GoError Message :=
  match feed.fetch pass with
  | .error err => (rs, .error (.wrapError "fetching message" err))
  | .ok m =>
    if c.reader.GroupID ≠ "" then ({ commits := rs.commits ++ [m] }, .ok m)
    else (rs, .ok m)

/-- The `for` loop of `(c *Consumer) Start(ctx)`, run for at most `fuel`
passes from pass `pass`.  The last component is `some (ctx.Err())` when the
loop has returned and `none` when it is still running after `fuel` passes. -/
def Consumer.loop (c : Consumer) (env : Env) (js : JSON) (feed : Feed) :
    Nat → Nat → World → ReaderState → World × ReaderState × Option GoError
  | 0, _, w, rs => (w, rs, none)
  | fuel + 1, pass, w, rs =>
    -- select { case <-ctx.Done(): return ctx.Err(); default: }
    if feed.done pass then (w, rs, some (.errorString "context canceled"))
    else
      match c.ReadMessage feed pass rs with
      | (rs, .error _) =>
        c.loop env js feed fuel (pass + 1) (c.logger.Error w "Failed to read message") rs
      | (rs, .ok msg) =>
        c.loop env js feed fuel (pass + 1) (c.handleOrderCreated env js w msg) rs

/-- Go: `(c *Consumer) Start(ctx)`. -/
def Consumer.Start (c : Consumer) (env : Env) (js : JSON) (feed : Feed) (fuel : Nat)
    (w : World) (rs : ReaderState) : World × ReaderState × Option GoError :=
  c.loop env js feed fuel 0 (c.logger.Info w "Consumer started") rs

end kafka

namespace orderapi

/-- Go (`cmd/order-api`): `type CreateOrderItemRequest struct`. -/
structure CreateOrderItemRequest where
  ItemID : String
  Name : String
  Price : F64
  Quantity : Int
  deriving DecidableEq

/-- Go: `type CreateOrderRequest struct`. -/
structure CreateOrderRequest where
  UserID : String
  RestaurantID : String
  Items : List CreateOrderItemRequest
  deriving DecidableEq

/-- Go: `type OrderResponse struct`. -/
structure OrderResponse where
  ID : String
  UserID : String
  RestaurantID : String
  Items : List domain.OrderItem
  TotalAmount : F64
  Status : String
  CreatedAt : Time
  UpdatedAt : Time
  deriving DecidableEq

/-- Go: `type ErrorResponse struct`. -/
structure ErrorResponse where
  Error : String
  Message : String
  deriving DecidableEq

/-- What a handler writes: status code and JSON body. -/
inductive HTTPResponse where
  | order (code : Nat) (body : OrderResponse)
  | error (code : Nat) (body : ErrorResponse)
  deriving DecidableEq

/-- Go: `type Server struct`, with the fields `createOrder` uses. -/
structure Server where
  service : service.OrderService
  logger : logger.Logger
  deriving DecidableEq

/-- The loop of `createOrder` that builds the item list:
`for _, item := range req.Items { items = append(items, domain.OrderItem{ID: item.ItemID, Name: item.Name, Price: item.Price, Quantity: item.Quantity}) }`
started from `var items []domain.OrderItem`.  Field `ItemID` of the new item
is not set and keeps its zero value. -/
def requestItems (reqItems : List CreateOrderItemRequest) : List domain.OrderItem :=
  reqItems.foldl
    (fun items item =>
      items ++ [{ ID := item.ItemID, ItemID := "", Name := item.Name, Price := item.Price,
                  Quantity := item.Quantity }])
    []

/-- Go: `(s *Server) createOrder(w, r)`, from the point where the request body
has been decoded into `req`.  The metrics counter is not modelled. -/
def Server.createOrder (s : Server) (env : Env) (js : JSON) (w : World)
    (req : CreateOrderRequest) : World × HTTPResponse :=
  let items := requestItems req.Items
  match s.service.CreateOrder env js w req.UserID req.RestaurantID items with
  | (w, .error err) =>
    (w, .error 400 { Error := "Failed to create order", Message := err.Error })
  | (w, .ok order) =>
    (w, .order 201
      { ID := order.ID
        UserID := order.UserID
        RestaurantID := order.RestaurantID
        Items := order.Items
        TotalAmount := order.TotalAmount
        Status := order.Status
        CreatedAt := order.CreatedAt
        UpdatedAt := order.UpdatedAt })

end orderapi

/-! ## Sample inputs -/

namespace Sample

/-- The items of the scenario "user u1, restaurant r1": prices 50 and 60, one of each. -/
def items : List domain.OrderItem :=
  [ { ID := "", ItemID := "burger", Name := "Burger", Price := 50, Quantity := 1 },
    { ID := "", ItemID := "pizza", Name := "Pizza", Price := 60, Quantity := 1 } ]

/-- An order whose last update is at instant 10. -/
def order : domain.Order :=
  { ID := "o-1", UserID := "u1", RestaurantID := "r1", Items := items, TotalAmount := 110,
    Status := domain.OrderStatusPending, CreatedAt := 10, UpdatedAt := 10, Version := 1 }

/-- The logger of the sample processes. -/
def log : logger.Logger := { level := "INFO" }

/-- The consumer as `cmd/order-processor` builds it. -/
def consumer : kafka.Consumer :=
  kafka.NewConsumer "localhost:9092" "order-processor-group" log {}

/-- The service as `cmd/order-api` builds it. -/
def orderService : service.OrderService :=
  service.NewOrderService {} (kafka.NewProducer "localhost:9092" log) log

/-- An empty store, an empty bus, no call made yet. -/
def world : World :=
  { db := { orders := [], order_items := [] }, dbCalls := 0, writes := [], logs := [],
    uuids := 0, clock := 0 }

/-- The OrderCreated event of order `o-1` with a given total. -/
def createdEvent (total : F64) : domain.OrderCreatedEvent :=
  { EventID := "e-1", OrderID := "o-1", UserID := "u1", RestaurantID := "r1", Items := items,
    TotalAmount := total, CreatedAt := 10 }

/-- An environment in which the store and the bus answer every call with
success; multiplication and addition are separate operations. -/
def env : Env :=
  { fp := Float64.separate
    uuid := fun n =>
      ["uuid-0", "uuid-1", "uuid-2", "uuid-3", "uuid-4", "uuid-5", "uuid-6", "uuid-7"].getD n
        "uuid-n"
    now := fun n => 1000 + n
    dbNow := fun k => 2000 + k
    dbErr := fun _ => none
    busErr := fun _ => none }

/-- The same environment with a store that refuses every call. -/
def envStoreDown : Env :=
  { env with dbErr := fun _ => some (.errorString "connection refused") }

/-- The OrderCreated event that `CreateOrder` publishes for `items` in `env`. -/
def publishedEvent : domain.OrderCreatedEvent :=
  { EventID := "uuid-3", OrderID := "uuid-2", UserID := "u1", RestaurantID := "r1",
    Items :=
      [ { ID := "uuid-0", ItemID := "burger", Name := "Burger", Price := 50, Quantity := 1 },
        { ID := "uuid-1", ItemID := "pizza", Name := "Pizza", Price := 60, Quantity := 1 } ],
    TotalAmount := 110, CreatedAt := 1000 }

/-- An OrderCreated event with total 45. -/
def lowEvent : domain.OrderCreatedEvent :=
  { EventID := "e-low", OrderID := "o-low", UserID := "u1", RestaurantID := "r1",
    Items := [ { ID := "item-9", ItemID := "tea", Name := "Tea", Price := 45, Quantity := 1 } ],
    TotalAmount := 45, CreatedAt := 900 }

/-- The float64 next below 100, written 99.99999999999999. -/
def justBelow100 : F64 := .finite false (0x18ffffffffffff <<< 1028)

/-- Items with prices 32.27, 12.69, 22.9 (twice) and 3.08 (three times): the
exact sum of `Price × Quantity` is 100. -/
def driftItems : List domain.OrderItem :=
  [ { ID := "", ItemID := "a", Name := "A", Price := 3227 / 100, Quantity := 1 },
    { ID := "", ItemID := "b", Name := "B", Price := 1269 / 100, Quantity := 1 },
    { ID := "", ItemID := "c", Name := "C", Price := 229 / 10, Quantity := 2 },
    { ID := "", ItemID := "d", Name := "D", Price := 308 / 100, Quantity := 3 } ]

/-- The OrderCreated event that `CreateOrder` publishes for `driftItems` in `env`. -/
def driftEvent : domain.OrderCreatedEvent :=
  { EventID := "uuid-5", OrderID := "uuid-4", UserID := "u1", RestaurantID := "r1",
    Items :=
      [ { ID := "uuid-0", ItemID := "a", Name := "A", Price := 3227 / 100, Quantity := 1 },
        { ID := "uuid-1", ItemID := "b", Name := "B", Price := 1269 / 100, Quantity := 1 },
        { ID := "uuid-2", ItemID := "c", Name := "C", Price := 229 / 10, Quantity := 2 },
        { ID := "uuid-3", ItemID := "d", Name := "D", Price := 308 / 100, Quantity := 3 } ],
    TotalAmount := justBelow100, CreatedAt := 1000 }

/-- Items with prices 12.5 (three times) and 0.25 (twice): every line sum is
a float64, so nothing is rounded; the total is 38. -/
def dyadicItems : List domain.OrderItem :=
  [ { ID := "", ItemID := "a", Name := "A", Price := 25 / 2, Quantity := 3 },
    { ID := "", ItemID := "b", Name := "B", Price := 1 / 4, Quantity := 2 } ]

/-- One item of price 1e308, ten times: the total is beyond the float64 range. -/
def hugeItems : List domain.OrderItem :=
  [ { ID := "", ItemID := "gold", Name := "Gold", Price := F64.ofNat (10 ^ 154 * 10 ^ 154),
      Quantity := 10 } ]

/-- A stand-in for `encoding/json` on sample data: payloads name the event,
an event whose total is not finite has no payload, and decoding recognises the
payloads of `publishedEvent`, `lowEvent` and `driftEvent`. -/
def json : JSON :=
  { MarshalCreated := fun e =>
      if e.TotalAmount.isFinite then .ok ("created:" ++ e.EventID ++ ":" ++ e.OrderID)
      else .error (.errorString "json: unsupported value")
    MarshalConfirmed := fun e => "confirmed:" ++ e.EventID ++ ":" ++ e.OrderID
    MarshalFailed := fun e => "failed:" ++ e.EventID ++ ":" ++ e.OrderID ++ ":" ++ e.Reason
    UnmarshalCreated := fun b =>
      if b = "created:uuid-3:uuid-2" then .ok publishedEvent
      else if b = "created:e-low:o-low" then .ok lowEvent
      else if b = "created:uuid-5:uuid-4" then .ok driftEvent
      else .error (.errorString "invalid character") }

/-- The order `CreateOrder` builds for `items` in `env`. -/
def builtOrder : domain.Order :=
  { ID := "uuid-2", UserID := "u1", RestaurantID := "r1", Items := publishedEvent.Items,
    TotalAmount := 110, Status := domain.OrderStatusPending, CreatedAt := 1000,
    UpdatedAt := 1000, Version := 1 }

/-- The world at the moment `builtOrder` is handed to the repository. -/
def worldBuilt : World := { world with uuids := 3, clock := 1 }

/-- The bus message that carries `publishedEvent`. -/
def publishedMessage : kafka.Message :=
  { Topic := kafka.OrdersTopic, Key := "uuid-2", Value := "created:uuid-3:uuid-2" }

/-- The bus message that carries `lowEvent`. -/
def lowMessage : kafka.Message :=
  { Topic := kafka.OrdersTopic, Key := "o-low", Value := "created:e-low:o-low" }

/-- A request item with a negative price and quantity zero. -/
def badItems : List domain.OrderItem :=
  [ { ID := "", ItemID := "tea", Name := "Tea", Price := -5, Quantity := 0 } ]

/-- A decoded create-order request naming the same catalog item twice. -/
def request : orderapi.CreateOrderRequest :=
  { UserID := "u1", RestaurantID := "r1",
    Items :=
      [ { ItemID := "burger", Name := "Burger", Price := 50, Quantity := 1 },
        { ItemID := "burger", Name := "Burger again", Price := 60, Quantity := 1 } ] }

/-- The HTTP server of `cmd/order-api`. -/
def server : orderapi.Server := { service := orderService, logger := log }

/-- A feed that delivers `lowMessage` in every pass and is never cancelled. -/
def feed : kafka.Feed :=
  { done := fun _ => false, fetch := fun _ => .ok lowMessage }

/-- A bus message whose payload is not an OrderCreated event. -/
def brokenMessage : kafka.Message :=
  { Topic := kafka.OrdersTopic, Key := "o-x", Value := "not json" }

/-- A feed that delivers `lowMessage` in its first pass and nothing after. -/
def feedOnce : kafka.Feed :=
  { done := fun _ => false
    fetch := fun n =>
      if n = 0 then .ok lowMessage else .error (.errorString "context deadline exceeded") }

/-- The bus message that carries `driftEvent`. -/
def driftMessage : kafka.Message :=
  { Topic := kafka.OrdersTopic, Key := "uuid-4", Value := "created:uuid-5:uuid-4" }

/-- An order whose version is the largest Go `int`. -/
def lastVersionOrder : domain.Order := { order with Version := 9223372036854775807 }

/-- A store that holds the orders `o-low` (total 45) and `uuid-2` (total 110),
both pending. -/
def storedWorld : World :=
  { world with
    db :=
      { orders :=
          [ { id := "o-low", user_id := "u1", restaurant_id := "r1", total_amount := 45,
              status := "PENDING", created_at := 900, updated_at := 900, version := 1 },
            { id := "uuid-2", user_id := "u1", restaurant_id := "r1", total_amount := 110,
              status := "PENDING", created_at := 1000, updated_at := 1000, version := 1 } ]
        order_items := [] } }

/-- The order `CreateOrder` builds for `hugeItems` in `env`: its total is `+Inf`. -/
def hugeOrder : domain.Order :=
  { ID := "uuid-1", UserID := "u1", RestaurantID := "r1",
    Items :=
      [ { ID := "uuid-0", ItemID := "gold", Name := "Gold",
          Price := F64.ofNat (10 ^ 154 * 10 ^ 154), Quantity := 10 } ],
    TotalAmount := F64.inf false, Status := domain.OrderStatusPending, CreatedAt := 1000,
    UpdatedAt := 1000, Version := 1 }

/-- The world at the moment `hugeOrder` is handed to the repository. -/
def worldHuge : World := { world with uuids := 2, clock := 1 }

/-- The reader before any message has been read. -/
def reader : kafka.ReaderState := { commits := [] }

end Sample

/-! ## Lemmas on float64 arithmetic -/

namespace F64

theorem lt_iff (x y : F64) : x < y ↔ lt x y = true := Iff.rfl

theorem le_iff (x y : F64) : x ≤ y ↔ le x y = true := Iff.rfl

theorem key_lt_trans {a b c : Bool} {n m k : Nat} (h1 : key a n < key b m)
    (h2 : key b m < key c k) : key a n < key c k := lt_trans h1 h2

theorem lt_trans' {x y z : F64} (h1 : x < y) (h2 : y < z) : x < z := by
  rw [lt_iff] at *
  cases x <;> cases y <;> cases z <;> simp_all [lt]
  exact key_lt_trans h1 h2

theorem not_lt_of_le' {x y : F64} (h : x ≤ y) : ¬ y < x := by
  rw [lt_iff, le_iff] at *
  cases x <;> cases y <;> simp_all [lt, le]
  rename_i a b
  cases a <;> cases b <;> simp_all

theorem isFinite_of_between (lo hi x : F64) (hlo : lo.isFinite = true)
    (hhi : hi.isFinite = true) (h1 : lo ≤ x) (h2 : x ≤ hi) : x.isFinite = true := by
  rw [le_iff] at h1 h2
  cases x <;> cases lo <;> cases hi <;> simp_all [le, isFinite]

theorem isFinite_of_mul (x y : F64) (h : (F64.mul x y).isFinite = true) :
    x.isFinite = true := by
  cases x with
  | finite a n => rfl
  | inf a =>
    cases y with
    | finite b m =>
      simp only [F64.mul] at h
      split at h <;> exact h
    | inf b => exact h
    | nan => exact h
  | nan => cases y <;> exact h

theorem isFinite_of_add (x y : F64) (h : (F64.add x y).isFinite = true) :
    x.isFinite = true ∧ y.isFinite = true := by
  cases x with
  | finite a n =>
    cases y with
    | finite b m => exact ⟨rfl, rfl⟩
    | inf b => exact ⟨rfl, h⟩
    | nan => exact ⟨rfl, h⟩
  | inf a =>
    cases y with
    | finite b m => exact ⟨h, rfl⟩
    | inf b =>
      simp only [F64.add] at h
      split at h <;> exact ⟨h, h⟩
    | nan => exact ⟨h, h⟩
  | nan => cases y <;> first | exact ⟨h, h⟩ | exact ⟨h, rfl⟩

theorem isFinite_of_fma (x y z : F64) (h : (F64.fma x y z).isFinite = true) :
    x.isFinite = true ∧ z.isFinite = true := by
  cases x with
  | finite a n =>
    cases y with
    | finite b m =>
      cases z with
      | finite c k => exact ⟨rfl, rfl⟩
      | inf c => exact ⟨rfl, h⟩
      | nan => exact ⟨rfl, h⟩
    | inf b =>
      have h1 : (F64.add (F64.mul (finite a n) (inf b)) z).isFinite = true := h
      exact ⟨rfl, (isFinite_of_add _ _ h1).2⟩
    | nan =>
      have h1 : (F64.add (F64.mul (finite a n) nan) z).isFinite = true := h
      exact ⟨rfl, (isFinite_of_add _ _ h1).2⟩
  | inf a =>
    have h1 : (F64.add (F64.mul (inf a) y) z).isFinite = true := h
    exact ⟨isFinite_of_mul _ _ (isFinite_of_add _ _ h1).1, (isFinite_of_add _ _ h1).2⟩
  | nan =>
    have h1 : (F64.add (F64.mul nan y) z).isFinite = true := h
    exact ⟨isFinite_of_mul _ _ (isFinite_of_add _ _ h1).1, (isFinite_of_add _ _ h1).2⟩

theorem bitStep_inv (n : Nat) (p : Nat × Nat) (k K : Nat) (hK : K = k + k)
    (h1 : n >>> p.2 = p.1) (h2 : p.1 >>> K = 0) (h3 : n ≠ 0 → p.1 ≠ 0) :
    n >>> (bitStep p k).2 = (bitStep p k).1 ∧ (bitStep p k).1 >>> k = 0 ∧
      (n ≠ 0 → (bitStep p k).1 ≠ 0) := by
  unfold bitStep
  by_cases h : p.1 >>> k = 0
  · rw [if_pos h]
    exact ⟨h1, h, h3⟩
  · rw [if_neg h]
    refine ⟨?_, ?_, fun _ => h⟩
    · rw [Nat.shiftRight_add, h1]
    · rw [← Nat.shiftRight_add, ← hK]
      exact h2

/-- The highest binary digit of `n` is digit `bitLength n - 1`. -/
theorem bitLength_spec (n : Nat) (hn : n >>> 8192 = 0) (h0 : n ≠ 0) :
    n >>> (bitLength n - 1) = 1 ∧ bitLength n ≠ 0 := by
  have s0 : n >>> ((n, 0) : Nat × Nat).2 = ((n, 0) : Nat × Nat).1 ∧
      ((n, 0) : Nat × Nat).1 >>> 8192 = 0 ∧ (n ≠ 0 → ((n, 0) : Nat × Nat).1 ≠ 0) :=
    ⟨Nat.shiftRight_zero, hn, fun h => h⟩
  have s1 := bitStep_inv n _ 4096 8192 (by norm_num) s0.1 s0.2.1 s0.2.2
  have s2 := bitStep_inv n _ 2048 4096 (by norm_num) s1.1 s1.2.1 s1.2.2
  have s3 := bitStep_inv n _ 1024 2048 (by norm_num) s2.1 s2.2.1 s2.2.2
  have s4 := bitStep_inv n _ 512 1024 (by norm_num) s3.1 s3.2.1 s3.2.2
  have s5 := bitStep_inv n _ 256 512 (by norm_num) s4.1 s4.2.1 s4.2.2
  have s6 := bitStep_inv n _ 128 256 (by norm_num) s5.1 s5.2.1 s5.2.2
  have s7 := bitStep_inv n _ 64 128 (by norm_num) s6.1 s6.2.1 s6.2.2
  have s8 := bitStep_inv n _ 32 64 (by norm_num) s7.1 s7.2.1 s7.2.2
  have s9 := bitStep_inv n _ 16 32 (by norm_num) s8.1 s8.2.1 s8.2.2
  have s10 := bitStep_inv n _ 8 16 (by norm_num) s9.1 s9.2.1 s9.2.2
  have s11 := bitStep_inv n _ 4 8 (by norm_num) s10.1 s10.2.1 s10.2.2
  have s12 := bitStep_inv n _ 2 4 (by norm_num) s11.1 s11.2.1 s11.2.2
  have s13 := bitStep_inv n _ 1 2 (by norm_num) s12.1 s12.2.1 s12.2.2
  have hdef : bitLength n
      = if (bitStep (bitStep (bitStep (bitStep (bitStep (bitStep (bitStep (bitStep (bitStep
          (bitStep (bitStep (bitStep (bitStep (n, 0) 4096) 2048) 1024) 512) 256) 128) 64) 32)
          16) 8) 4) 2) 1).1 = 0
        then (bitStep (bitStep (bitStep (bitStep (bitStep (bitStep (bitStep (bitStep (bitStep
          (bitStep (bitStep (bitStep (bitStep (n, 0) 4096) 2048) 1024) 512) 256) 128) 64) 32)
          16) 8) 4) 2) 1).2
        else (bitStep (bitStep (bitStep (bitStep (bitStep (bitStep (bitStep (bitStep (bitStep
          (bitStep (bitStep (bitStep (bitStep (n, 0) 4096) 2048) 1024) 512) 256) 128) 64) 32)
          16) 8) 4) 2) 1).2 + 1 := by
    unfold bitLength
    rw [List.foldl_cons, List.foldl_cons, List.foldl_cons, List.foldl_cons, List.foldl_cons,
      List.foldl_cons, List.foldl_cons, List.foldl_cons, List.foldl_cons, List.foldl_cons,
      List.foldl_cons, List.foldl_cons, List.foldl_cons, List.foldl_nil]
  generalize (bitStep (bitStep (bitStep (bitStep (bitStep (bitStep (bitStep (bitStep (bitStep
          (bitStep (bitStep (bitStep (bitStep (n, 0) 4096) 2048) 1024) 512) 256) 128) 64) 32)
          16) 8) 4) 2) 1) = p at s13 hdef
  obtain ⟨h1, h2, h3⟩ := s13
  have hp : p.1 ≠ 0 := h3 h0
  have hp1 : p.1 = 1 := by
    rw [Nat.shiftRight_eq_div_pow] at h2
    have : p.1 / 2 = 0 := by simpa using h2
    omega
  rw [hdef]
  simp only [hp, if_false]
  refine ⟨?_, by omega⟩
  rw [Nat.add_sub_cancel, h1, hp1]

theorem shiftRight_unique (n a c : Nat) (ha : n >>> a = 1) (hc : n >>> c = 1) : a = c := by
  have key : ∀ a c : Nat, a < c → n >>> a = 1 → n >>> c ≠ 1 := by
    intro a c hlt ha hc
    have h1 : n >>> c = (n >>> a) >>> (c - a) := by
      rw [← Nat.shiftRight_add]
      congr 1
      omega
    have h2 : 1 < 2 ^ (c - a) := Nat.one_lt_two_pow (by omega)
    have h3 : 1 >>> (c - a) = 0 := by
      rw [Nat.shiftRight_eq_div_pow, Nat.div_eq_of_lt h2]
    rw [ha, h3] at h1
    omega
  rcases Nat.lt_trichotomy a c with h | h | h
  · exact absurd hc (key a c h ha)
  · exact h
  · exact absurd ha (key c a h hc)

theorem shiftLeft_shiftRight_add (u e c : Nat) : (u <<< e) >>> (e + c) = u >>> c := by
  rw [Nat.shiftRight_add, Nat.shiftLeft_shiftRight]

theorem shiftLeft_ne_zero (u e : Nat) (hu : u ≠ 0) : u <<< e ≠ 0 := by
  rw [Nat.shiftLeft_eq]
  exact Nat.mul_ne_zero hu (by positivity)

theorem bitLength_shiftLeft (u e : Nat) (hu : u ≠ 0) (h8 : u >>> 8192 = 0)
    (h : (u <<< e) >>> 8192 = 0) : bitLength (u <<< e) = bitLength u + e := by
  obtain ⟨h1, h2⟩ := bitLength_spec u h8 hu
  obtain ⟨h3, h4⟩ := bitLength_spec (u <<< e) h (shiftLeft_ne_zero u e hu)
  have h5 : (u <<< e) >>> (e + (bitLength u - 1)) = 1 := by
    rw [shiftLeft_shiftRight_add, h1]
  have h6 := shiftRight_unique _ _ _ h3 h5
  omega

theorem shiftRight_zero_mono (u a b : Nat) (h : u >>> a = 0) (hab : a ≤ b) : u >>> b = 0 := by
  obtain ⟨c, rfl⟩ := Nat.exists_eq_add_of_le hab
  rw [Nat.shiftRight_add, h, Nat.zero_shiftRight]

theorem shiftLeft_shiftRight_sub (u e b : Nat) (h : e ≤ b) :
    (u <<< e) >>> b = u >>> (b - e) := by
  obtain ⟨c, rfl⟩ := Nat.exists_eq_add_of_le h
  rw [shiftLeft_shiftRight_add, Nat.add_sub_cancel_left]

theorem one_shiftLeft_ne_zero (k : Nat) : 1 <<< k ≠ 0 := shiftLeft_ne_zero 1 k (by decide)

/-- Rounding a number that needs no rounding. -/
theorem round_of_rest_zero (neg : Bool) (mag extra shift q : Nat) (h : mag >>> 8000 = 0)
    (hshift : max (bitLength mag - 53) extra = shift)
    (hq : mag >>> shift = q)
    (hrest : mag - (q <<< shift) = 0)
    (hunits : (q <<< (shift - extra)) >>> 2098 = 0) :
    round neg mag extra = finite neg (q <<< (shift - extra)) := by
  subst hshift
  unfold round
  rw [if_pos h]
  simp only [hq, hrest]
  by_cases hs : max (bitLength mag - 53) extra = 0
  · simp only [hs, if_true]
    rw [hs] at hunits
    rw [if_pos hunits]
  · have hhalf : ¬ (0 > 1 <<< (max (bitLength mag - 53) extra - 1)) := Nat.not_lt_zero _
    have hhalf2 : ¬ (0 = 1 <<< (max (bitLength mag - 53) extra - 1) ∧ q % 2 = 1) := by
      intro hc
      exact one_shiftLeft_ne_zero _ hc.1.symm
    simp only [hs, if_false, hhalf, hhalf2]
    rw [if_pos hunits]

/-- A float64 value is its own rounding: `u` units of `2^-1074`, written with
`extra` more binary digits, round to `u`. -/
theorem round_exact (neg : Bool) (u extra : Nat) (hrep : representable u = true)
    (hextra : extra ≤ 1201) : round neg (u <<< extra) extra = finite neg u := by
  simp only [representable, Bool.and_eq_true, decide_eq_true_eq] at hrep
  obtain ⟨hfin, hsig⟩ := hrep
  by_cases hu : u = 0
  · subst hu
    have h := round_of_rest_zero neg (0 <<< extra) extra
      (max (bitLength (0 <<< extra) - 53) extra) 0
      (by rw [Nat.zero_shiftLeft, Nat.zero_shiftRight]) rfl
      (by rw [Nat.zero_shiftLeft, Nat.zero_shiftRight])
      (by rw [Nat.zero_shiftLeft, Nat.zero_sub])
      (by rw [Nat.zero_shiftLeft, Nat.zero_shiftRight])
    rw [h, Nat.zero_shiftLeft]
  · have h8192 : u >>> 8192 = 0 := shiftRight_zero_mono u 2098 8192 hfin (by norm_num)
    have hm8000 : (u <<< extra) >>> 8000 = 0 := by
      rw [shiftLeft_shiftRight_sub u extra 8000 (by omega)]
      exact shiftRight_zero_mono u 2098 _ hfin (by omega)
    have hm8192 : (u <<< extra) >>> 8192 = 0 :=
      shiftRight_zero_mono _ 8000 8192 hm8000 (by norm_num)
    have hbl := bitLength_shiftLeft u extra hu h8192 hm8192
    by_cases hsmall : bitLength u ≤ 53
    · have hshift : max (bitLength (u <<< extra) - 53) extra = extra := by
        rw [hbl]
        exact Nat.max_eq_right (by omega)
      have h := round_of_rest_zero neg (u <<< extra) extra extra u hm8000 hshift
        (Nat.shiftLeft_shiftRight u extra) (Nat.sub_self _)
        (by rw [Nat.sub_self, Nat.shiftLeft_zero]; exact hfin)
      rw [h, Nat.sub_self, Nat.shiftLeft_zero]
    · have hshift : max (bitLength (u <<< extra) - 53) extra = extra + (bitLength u - 53) := by
        rw [hbl]
        have : bitLength u + extra - 53 = extra + (bitLength u - 53) := by omega
        rw [this]
        exact Nat.max_eq_left (by omega)
      have hq : (u <<< extra) >>> (extra + (bitLength u - 53)) = u >>> (bitLength u - 53) :=
        shiftLeft_shiftRight_add u extra _
      have hback : (u >>> (bitLength u - 53)) <<< (extra + (bitLength u - 53)) = u <<< extra := by
        rw [Nat.add_comm, Nat.shiftLeft_add, hsig]
      have hunits : (u >>> (bitLength u - 53)) <<< (extra + (bitLength u - 53) - extra) = u := by
        rw [Nat.add_sub_cancel_left, hsig]
      have h := round_of_rest_zero neg (u <<< extra) extra (extra + (bitLength u - 53))
        (u >>> (bitLength u - 53)) hm8000 hshift hq (by rw [hback, Nat.sub_self])
        (by rw [hunits]; exact hfin)
      rw [h, hunits]

theorem zero_eq : (0 : F64) = finite false 0 := by decide

theorem round_exact_zero (neg : Bool) (u : Nat) (hrep : representable u = true) :
    round neg u 0 = finite neg u := by
  have h := round_exact neg u 0 hrep (by norm_num)
  rw [Nat.shiftLeft_zero] at h
  exact h

theorem ofInt_exact (q : Int) (hq : 0 ≤ q) (h : representable (q.toNat <<< 1074) = true) :
    ofInt q = finite false (q.toNat <<< 1074) := by
  unfold ofInt
  have h1 : decide (q < 0) = false := by
    rw [decide_eq_false_iff_not]
    omega
  have h2 : q.natAbs = q.toNat := by omega
  rw [h1, h2]
  exact round_exact_zero false _ h

theorem mul_shiftLeft (n q e : Nat) : n * (q <<< e) = (n * q) <<< e := by
  rw [Nat.shiftLeft_eq, Nat.shiftLeft_eq, Nat.mul_assoc]

theorem mul_exact (n q : Nat) (h : representable (n * q) = true) :
    F64.mul (finite false n) (finite false (q <<< 1074)) = finite false (n * q) := by
  have h1 : F64.mul (finite false n) (finite false (q <<< 1074))
      = round (false != false) (n * (q <<< 1074)) 1074 := rfl
  rw [h1, mul_shiftLeft]
  exact round_exact _ _ 1074 h (by norm_num)

theorem add_exact (t m : Nat) (h : representable (t + m) = true) :
    F64.add (finite false t) (finite false m) = finite false (t + m) := by
  have h1 : F64.add (finite false t) (finite false m) = round false (t + m) 0 := by
    simp only [F64.add, if_true]
  rw [h1]
  exact round_exact_zero false _ h

theorem fma_exact (n q t : Nat) (h : representable (t + n * q) = true) :
    F64.fma (finite false n) (finite false (q <<< 1074)) (finite false t)
      = finite false (t + n * q) := by
  have h1 : F64.fma (finite false n) (finite false (q <<< 1074)) (finite false t)
      = round false (n * (q <<< 1074) + t <<< 1074) 1074 := by
    simp only [F64.fma, bne_self_eq_false, if_true]
  have h2 : n * (q <<< 1074) + t <<< 1074 = (t + n * q) <<< 1074 := by
    rw [mul_shiftLeft, Nat.shiftLeft_eq, Nat.shiftLeft_eq, Nat.shiftLeft_eq, Nat.add_mul,
      Nat.add_comm]
  rw [h1, h2]
  exact round_exact _ _ 1074 h (by norm_num)

end F64

/-! ## Lemmas on the total -/

namespace domain

theorem accumulate_eq_lineSum (fp : Float64) (total : F64) (item : OrderItem) :
    accumulate fp total item = lineSum fp total item := rfl

theorem totalLoop_append_sum (fp : Float64) (done rest : List OrderItem) :
    rest.foldl (accumulate fp) (sumInListOrder fp (done ++ rest) done.length)
      = sumInListOrder fp (done ++ rest) (done ++ rest).length := by
  induction rest generalizing done with
  | nil => simp
  | cons item rest ih =>
    have hget : (done ++ item :: rest).get? done.length = some item := by
      rw [List.get?_eq_getElem?, List.getElem?_append_right (le_refl _)]
      simp
    have hstep : accumulate fp (sumInListOrder fp (done ++ item :: rest) done.length) item
        = sumInListOrder fp (done ++ item :: rest) (done.length + 1) := by
      simp only [sumInListOrder, hget, accumulate_eq_lineSum]
    have h := ih (done ++ [item])
    simp only [List.append_assoc, List.singleton_append, List.length_append,
      List.length_singleton] at h
    simp only [List.foldl_cons, hstep, h, List.length_append, List.length_cons]

theorem totalLoop_eq_sumInListOrder (fp : Float64) (items : List OrderItem) :
    totalLoop fp items = sumInListOrder fp items items.length := by
  have h := totalLoop_append_sum fp [] items
  simpa [totalLoop, sumInListOrder] using h

theorem units?_isSome_of_isFinite (x : F64) (h : x.isFinite = true) :
    ∃ r, x.units? = some r := by
  cases x <;> simp_all [F64.isFinite, F64.units?]

/-- When no line has to be rounded, the loop ends on the exact sum. -/
theorem foldl_units_of_noRounding (fp : Float64) (items : List OrderItem) (total : F64)
    (t : Int) (ht : total.units? = some t) (h : noRounding fp total items = true) :
    (items.foldl (accumulate fp) total).units? = some (t + exactSum items) := by
  induction items generalizing total t with
  | nil => simpa [exactSum] using ht
  | cons item rest ih =>
    simp only [noRounding, Bool.and_eq_true, decide_eq_true_eq] at h
    obtain ⟨⟨hfin, hstep⟩, hrest⟩ := h
    obtain ⟨r, hr⟩ := units?_isSome_of_isFinite _ hfin
    rw [hr] at hstep
    cases hp : item.Price.units? with
    | none => simp [exactStep, ht, hp] at hstep
    | some p =>
      simp only [exactStep, ht, hp, Option.some.injEq] at hstep
      have h1 := ih (lineSum fp total item) r hr hrest
      simp only [List.foldl_cons, accumulate_eq_lineSum, h1, exactSum, hp, Option.getD_some,
        hstep]
      congr 1
      ring

/-- A line sum that is finite comes from a finite total and a finite price. -/
theorem isFinite_of_accumulate (fp : Float64) (total : F64) (item : OrderItem)
    (h : (accumulate fp total item).isFinite = true) :
    total.isFinite = true ∧ item.Price.isFinite = true := by
  unfold accumulate at h
  cases hf : fp.fused
  · simp only [hf, Bool.false_eq_true, if_false] at h
    have h1 := F64.isFinite_of_add _ _ h
    exact ⟨h1.1, F64.isFinite_of_mul _ _ h1.2⟩
  · simp only [hf, if_true] at h
    have h1 := F64.isFinite_of_fma _ _ _ h
    exact ⟨h1.2, h1.1⟩

theorem isFinite_of_foldl (fp : Float64) (items : List OrderItem) (total : F64)
    (h : (items.foldl (accumulate fp) total).isFinite = true) :
    total.isFinite = true ∧ ∀ item ∈ items, item.Price.isFinite = true := by
  induction items generalizing total with
  | nil => simpa using h
  | cons item rest ih =>
    obtain ⟨h1, h2⟩ := ih _ h
    obtain ⟨h3, h4⟩ := isFinite_of_accumulate fp total item h1
    refine ⟨h3, ?_⟩
    intro it hit
    rcases List.mem_cons.mp hit with rfl | hmem
    · exact h4
    · exact h2 it hmem

/-- One line of the sum when nothing has to be rounded. -/
theorem lineSum_exact (fp : Float64) (t n : Nat) (item : OrderItem)
    (hp : item.Price = F64.finite false n) (hq : 0 ≤ item.Quantity)
    (hqr : F64.representable (item.Quantity.toNat <<< 1074) = true)
    (hpr : F64.representable (n * item.Quantity.toNat) = true)
    (hsr : F64.representable (t + n * item.Quantity.toNat) = true) :
    lineSum fp (F64.finite false t) item = F64.finite false (t + n * item.Quantity.toNat) := by
  unfold lineSum
  rw [hp, F64.ofInt_exact _ hq hqr]
  cases hf : fp.fused
  · simp only [Bool.false_eq_true, if_false]
    have hmul : F64.finite false n * F64.finite false (item.Quantity.toNat <<< 1074)
        = F64.finite false (n * item.Quantity.toNat) := F64.mul_exact _ _ hpr
    rw [hmul]
    exact F64.add_exact _ _ hsr
  · simp only [if_true]
    exact F64.fma_exact _ _ _ hsr

theorem noRounding_of_exactlySummable (fp : Float64) (items : List OrderItem) (t : Nat)
    (h : exactlySummable t items = true) : noRounding fp (F64.finite false t) items = true := by
  induction items generalizing t with
  | nil => rfl
  | cons item rest ih =>
    unfold exactlySummable at h
    cases hp : item.Price with
    | nan => simp [hp] at h
    | inf a => simp [hp] at h
    | finite a n =>
      cases a with
      | true => simp [hp] at h
      | false =>
        simp only [hp, Bool.and_eq_true, decide_eq_true_eq] at h
        obtain ⟨⟨⟨⟨hq, hqr⟩, hpr⟩, hsr⟩, hrest⟩ := h
        have hline := lineSum_exact fp t n item hp hq hqr hpr hsr
        unfold noRounding
        rw [hline]
        simp only [Bool.and_eq_true, decide_eq_true_eq]
        refine ⟨⟨rfl, ?_⟩, ih _ hrest⟩
        simp only [F64.units?, exactStep, hp, F64.key, Bool.false_eq_true, if_false]
        congr 1
        have hcast : ((item.Quantity.toNat : Nat) : Int) = item.Quantity :=
          Int.toNat_of_nonneg hq
        push_cast
        rw [hcast]

/-- When every quantity, product and partial sum is a float64 and nothing is
negative, the loop ends on the exact sum. -/
theorem totalLoop_units_of_exactlySummable (fp : Float64) (items : List OrderItem)
    (h : exactlySummable 0 items = true) :
    (totalLoop fp items).units? = some (exactSum items) := by
  have h1 := noRounding_of_exactlySummable fp items 0 h
  have h2 := foldl_units_of_noRounding fp items (F64.finite false 0) 0 rfl h1
  rw [totalLoop, F64.zero_eq]
  simpa using h2

end domain

/-! ## Lemmas on the service, the repository and the bus -/

namespace service

theorem assignItemIDs_world (env : Env) (items : List domain.OrderItem) (w : World) :
    (assignItemIDs env items w).2.db = w.db ∧
    (assignItemIDs env items w).2.dbCalls = w.dbCalls ∧
    (assignItemIDs env items w).2.writes = w.writes ∧
    (assignItemIDs env items w).2.logs = w.logs ∧
    (assignItemIDs env items w).2.clock = w.clock := by
  induction items generalizing w with
  | nil => simp [assignItemIDs]
  | cons item rest ih =>
    unfold assignItemIDs
    by_cases h : item.ID = ""
    · have h1 := ih (uuidNew env w).2
      simpa [h, uuidNew] using h1
    · have h1 := ih w
      simpa [h] using h1

/-- The identifier loop calls `uuid.New()` once for each item without identifier. -/
theorem assignItemIDs_uuids (env : Env) (items : List domain.OrderItem) (w : World) :
    (assignItemIDs env items w).2.uuids
      = w.uuids + items.countP fun it => decide (it.ID = "") := by
  induction items generalizing w with
  | nil => simp [assignItemIDs]
  | cons item rest ih =>
    unfold assignItemIDs
    by_cases h : item.ID = ""
    · have h1 := ih (uuidNew env w).2
      simp only [uuidNew] at h1
      simp only [h, if_true, uuidNew, h1, List.countP_cons_of_pos, decide_True]
      omega
    · have h1 := ih w
      simp [h, h1]

theorem assignItemIDs_snd (env : Env) (items : List domain.OrderItem) (w : World) :
    (assignItemIDs env items w).2
      = { w with uuids := w.uuids + items.countP fun it => decide (it.ID = "") } := by
  have h1 := assignItemIDs_world env items w
  have h2 := assignItemIDs_uuids env items w
  rcases ha : assignItemIDs env items w with ⟨items1, wa⟩
  rw [ha] at h1 h2
  simp only at h1 h2
  obtain ⟨h3, h4, h5, h6, h7⟩ := h1
  cases wa
  cases w
  simp_all

theorem foldl_assignItemIDs (env : Env) (fp : Float64) (items : List domain.OrderItem)
    (w : World) (acc : F64) :
    (assignItemIDs env items w).1.foldl (domain.accumulate fp) acc
      = items.foldl (domain.accumulate fp) acc := by
  induction items generalizing w acc with
  | nil => simp [assignItemIDs]
  | cons item rest ih =>
    unfold assignItemIDs
    by_cases h : item.ID = ""
    · simp [h, ih, domain.accumulate]
    · simp [h, ih]

theorem totalLoop_assignItemIDs (env : Env) (fp : Float64) (items : List domain.OrderItem)
    (w : World) :
    domain.totalLoop fp (assignItemIDs env items w).1 = domain.totalLoop fp items :=
  foldl_assignItemIDs env fp items w 0

theorem assignItemIDs_length (env : Env) (items : List domain.OrderItem) (w : World) :
    (assignItemIDs env items w).1.length = items.length := by
  induction items generalizing w with
  | nil => simp [assignItemIDs]
  | cons item rest ih =>
    unfold assignItemIDs
    by_cases h : item.ID = ""
    · simp [h, ih]
    · simp [h, ih]

/-- The item at position `i` after the identifier loop: an item without
identifier gets the answer of the `uuid.New()` call made for it, which comes
after one call for each earlier item without identifier. -/
theorem assignItemIDs_getElem? (env : Env) (items : List domain.OrderItem) (w : World)
    (i : Nat) :
    (assignItemIDs env items w).1[i]?
      = items[i]?.map fun item =>
          if item.ID = "" then
            { item with
              ID := env.uuid (w.uuids + (items.take i).countP fun it => decide (it.ID = "")) }
          else item := by
  induction items generalizing w i with
  | nil => simp [assignItemIDs]
  | cons item rest ih =>
    unfold assignItemIDs
    by_cases h : item.ID = ""
    · cases i with
      | zero => simp [h, uuidNew]
      | succ i =>
        have h1 := ih (uuidNew env w).2 i
        have harith : ∀ c : Nat, w.uuids + 1 + c = w.uuids + (c + 1) := by
          intro c
          omega
        simp only [uuidNew] at h1
        simp [h, h1, uuidNew, List.take_succ_cons, harith]
    · cases i with
      | zero => simp [h]
      | succ i =>
        have h1 := ih w i
        simp [h, h1, List.take_succ_cons]

theorem assignItemIDs_fields (env : Env) (items : List domain.OrderItem) (w : World) :
    (assignItemIDs env items w).1.map (fun it => (it.ItemID, it.Name, it.Price, it.Quantity))
      = items.map (fun it => (it.ItemID, it.Name, it.Price, it.Quantity)) := by
  induction items generalizing w with
  | nil => simp [assignItemIDs]
  | cons item rest ih =>
    unfold assignItemIDs
    by_cases h : item.ID = ""
    · simp [h, ih]
    · simp [h, ih]

theorem assignItemIDs_prices (env : Env) (items : List domain.OrderItem) (w : World) :
    (assignItemIDs env items w).1.map (fun it => (it.Price, it.Quantity))
      = items.map (fun it => (it.Price, it.Quantity)) := by
  have h := congrArg (List.map fun p : String × String × F64 × Int => (p.2.2.1, p.2.2.2))
    (assignItemIDs_fields env items w)
  simpa [List.map_map, Function.comp] using h

theorem assignItemIDs_busErr (env : Env) (f : Nat → Option GoError)
    (items : List domain.OrderItem) (w : World) :
    assignItemIDs { env with busErr := f } items w = assignItemIDs env items w := by
  induction items generalizing w with
  | nil => simp [assignItemIDs]
  | cons item rest ih =>
    unfold assignItemIDs
    by_cases h : item.ID = ""
    · simp [h, ih, uuidNew]
    · simp [h, ih]

theorem buildOrder_busErr (env : Env) (f : Nat → Option GoError) (w : World)
    (userID restaurantID : String) (items : List domain.OrderItem) :
    buildOrder { env with busErr := f } w userID restaurantID items
      = buildOrder env w userID restaurantID items := by
  simp [buildOrder, assignItemIDs_busErr, timeNow, uuidNew]

/-- The order handed to the repository, written out. -/
theorem buildOrder_eq (env : Env) (w : World) (userID restaurantID : String)
    (items : List domain.OrderItem) :
    buildOrder env w userID restaurantID items
      = (.ok { ID := env.uuid (w.uuids + items.countP fun it => decide (it.ID = ""))
               UserID := userID
               RestaurantID := restaurantID
               Items := (assignItemIDs env items w).1
               TotalAmount := domain.totalLoop env.fp items
               Status := "PENDING"
               CreatedAt := env.now w.clock
               UpdatedAt := env.now w.clock
               Version := 1 },
          { w with
            uuids := w.uuids + (items.countP fun it => decide (it.ID = "")) + 1
            clock := w.clock + 1 }) := by
  have hs := assignItemIDs_snd env items w
  have ht := totalLoop_assignItemIDs env env.fp items w
  rcases ha : assignItemIDs env items w with ⟨items1, wa⟩
  rw [ha] at hs ht
  simp only at hs ht
  subst hs
  simp [buildOrder, ha, timeNow, uuidNew, domain.NewOrder, ht, domain.OrderStatusPending]

theorem buildOrder_items (env : Env) (w w1 : World) (userID restaurantID : String)
    (items : List domain.OrderItem) (order : domain.Order)
    (hbuild : buildOrder env w userID restaurantID items = (.ok order, w1)) :
    order.Items = (assignItemIDs env items w).1 ∧ order.UserID = userID ∧
    order.RestaurantID = restaurantID ∧
    order.TotalAmount = domain.totalLoop env.fp items ∧
    order.Status = domain.OrderStatusPending ∧ order.Version = 1 ∧
    w1.db = w.db ∧ w1.dbCalls = w.dbCalls ∧ w1.writes = w.writes ∧ w1.logs = w.logs := by
  rw [buildOrder_eq] at hbuild
  simp only [Prod.mk.injEq, Except.ok.injEq] at hbuild
  obtain ⟨horder, hw1⟩ := hbuild
  subst horder
  subst hw1
  simp [domain.OrderStatusPending]

end service

namespace repository

theorem insertItems_ok (env : Env) (hok : ∀ k, env.dbErr k = none) (order : domain.Order)
    (items : List domain.OrderItem) (tx : Database) (calls : Nat) :
    insertItems env order items tx calls
      = (calls + items.length,
          .ok { tx with order_items := tx.order_items ++ items.map (itemRow order) }) := by
  induction items generalizing tx calls with
  | nil => simp [insertItems]
  | cons item rest ih =>
    unfold insertItems
    simp only [hok, ih, List.length_cons, List.map_cons, List.append_assoc, List.singleton_append]
    congr 1
    omega

theorem CreateOrder_ok (r : OrderRepository) (env : Env) (hok : ∀ k, env.dbErr k = none)
    (w : World) (order : domain.Order) :
    r.CreateOrder env w order
      = ({ w with
            db := { orders := w.db.orders ++ [orderRow order]
                    order_items := w.db.order_items ++ order.Items.map (itemRow order) }
            dbCalls := w.dbCalls + 2 + order.Items.length + 1 }, none) := by
  unfold OrderRepository.CreateOrder
  simp only [hok, insertItems_ok env hok]

theorem CreateOrder_world (r : OrderRepository) (env : Env) (w : World) (order : domain.Order) :
    (r.CreateOrder env w order).1.writes = w.writes ∧
    (r.CreateOrder env w order).1.logs = w.logs ∧
    (r.CreateOrder env w order).1.uuids = w.uuids ∧
    (r.CreateOrder env w order).1.clock = w.clock ∧
    (∀ err, (r.CreateOrder env w order).2 = some err → (r.CreateOrder env w order).1.db = w.db) := by
  unfold OrderRepository.CreateOrder
  cases h0 : env.dbErr w.dbCalls with
  | some e0 => simp
  | none =>
    cases h1 : env.dbErr (w.dbCalls + 1) with
    | some e1 => simp
    | none =>
      rcases hi : insertItems env order order.Items
          { orders := w.db.orders ++ [orderRow order], order_items := w.db.order_items }
          (w.dbCalls + 2) with ⟨calls, res⟩
      cases res with
      | error e2 => simp [hi]
      | ok tx =>
        cases h3 : env.dbErr calls with
        | some e3 => simp [hi, h3]
        | none => simp [hi, h3]

theorem insertItems_busErr (env : Env) (f : Nat → Option GoError) (order : domain.Order)
    (items : List domain.OrderItem) (tx : Database) (calls : Nat) :
    insertItems { env with busErr := f } order items tx calls
      = insertItems env order items tx calls := by
  induction items generalizing tx calls with
  | nil => simp [insertItems]
  | cons item rest ih =>
    unfold insertItems
    cases h : env.dbErr calls with
    | some err => simp [h]
    | none => simp [h, ih]

theorem CreateOrder_busErr (r : OrderRepository) (env : Env) (f : Nat → Option GoError)
    (w : World) (order : domain.Order) :
    r.CreateOrder { env with busErr := f } w order = r.CreateOrder env w order := by
  simp [OrderRepository.CreateOrder, insertItems_busErr]

theorem insertItems_orders (env : Env) (order : domain.Order) (items : List domain.OrderItem)
    (tx tx1 : Database) (calls calls1 : Nat)
    (h : insertItems env order items tx calls = (calls1, .ok tx1)) :
    tx1.orders = tx.orders := by
  induction items generalizing tx calls with
  | nil =>
    simp only [insertItems, Prod.mk.injEq, Except.ok.injEq] at h
    rw [← h.2]
  | cons item rest ih =>
    unfold insertItems at h
    cases hc : env.dbErr calls with
    | some err => simp [hc] at h
    | none =>
      simp only [hc] at h
      have h1 := ih _ _ h
      simpa using h1

/-- A successful `CreateOrder` leaves the row of the order in table `orders`. -/
theorem CreateOrder_stored (r : OrderRepository) (env : Env) (w : World) (order : domain.Order)
    (h : (r.CreateOrder env w order).2 = none) :
    (r.CreateOrder env w order).1.db.orders = w.db.orders ++ [orderRow order] := by
  unfold OrderRepository.CreateOrder at h ⊢
  cases h0 : env.dbErr w.dbCalls with
  | some e0 => simp [h0] at h
  | none =>
    cases h1 : env.dbErr (w.dbCalls + 1) with
    | some e1 => simp [h0, h1] at h
    | none =>
      rcases hi : insertItems env order order.Items
          { orders := w.db.orders ++ [orderRow order], order_items := w.db.order_items }
          (w.dbCalls + 2) with ⟨calls, res⟩
      cases res with
      | error e2 => simp [h0, h1, hi] at h
      | ok tx =>
        have ho := insertItems_orders env order order.Items _ tx _ calls hi
        cases h3 : env.dbErr calls with
        | some e3 => simp [h0, h1, hi, h3] at h
        | none => simpa [h0, h1, hi, h3] using ho

end repository

namespace service

/-- On valid input `CreateOrder` hands the order it built to the repository:
it returns the repository's error, or the order when there is none. -/
theorem CreateOrder_result (s : OrderService) (env : Env) (js : JSON) (w : World)
    (userID restaurantID : String) (items : List domain.OrderItem)
    (hu : userID ≠ "") (hr : restaurantID ≠ "") (hi : items ≠ [])
    (order : domain.Order) (w1 : World)
    (hbuild : buildOrder env w userID restaurantID items = (.ok order, w1)) :
    (s.CreateOrder env js w userID restaurantID items).2
      = match (s.repo.CreateOrder env w1 order).2 with
        | none => .ok order
        | some err => .error err := by
  have hlen : ¬ items.length = 0 := by
    intro h
    exact hi (List.length_eq_zero.mp h)
  rcases ha : assignItemIDs env items w with ⟨items1, wa⟩
  simp only [buildOrder, ha, timeNow, uuidNew, Prod.mk.injEq] at hbuild
  obtain ⟨horder, hw1⟩ := hbuild
  unfold OrderService.CreateOrder
  simp only [hu, hr, hlen, or_self, if_false, ha, timeNow, uuidNew, horder, hw1]
  rcases hrepo : s.repo.CreateOrder env w1 order with ⟨w2, res⟩
  cases res with
  | some err => simp
  | none =>
    simp only
    split <;> rfl

/-- An order that `CreateOrder` returns is the order it built. -/
theorem CreateOrder_returns_built (s : OrderService) (env : Env) (js : JSON) (w : World)
    (userID restaurantID : String) (items : List domain.OrderItem) (order : domain.Order)
    (h : (s.CreateOrder env js w userID restaurantID items).2 = .ok order) :
    (buildOrder env w userID restaurantID items).1 = .ok order ∧
    userID ≠ "" ∧ restaurantID ≠ "" ∧ items ≠ [] := by
  unfold OrderService.CreateOrder at h
  by_cases h1 : userID = "" ∨ restaurantID = ""
  · simp [h1] at h
  · by_cases h2 : items.length = 0
    · simp [h1, h2] at h
    · have hu : userID ≠ "" := fun hx => h1 (Or.inl hx)
      have hr : restaurantID ≠ "" := fun hx => h1 (Or.inr hx)
      have hi : items ≠ [] := fun hx => h2 (by simp [hx])
      refine ⟨?_, hu, hr, hi⟩
      rcases ha : assignItemIDs env items w with ⟨items1, wa⟩
      simp only [h1, h2, if_false, ha, timeNow, uuidNew, domain.NewOrder] at h
      simp only [buildOrder, ha, timeNow, uuidNew, domain.NewOrder]
      split at h
      · simp at h
      · split at h
        · simpa using h
        · simpa using h

/-- `CreateOrder` on valid input once the repository has stored the order:
the order is returned whatever the publish step does; the event is encoded
and, when that succeeds, written to the bus once. -/
theorem CreateOrder_persisted (s : OrderService) (env : Env) (js : JSON) (w w1 w2 : World)
    (userID restaurantID : String) (items : List domain.OrderItem) (order : domain.Order)
    (hu : userID ≠ "") (hr : restaurantID ≠ "") (hi : items ≠ [])
    (hbuild : buildOrder env w userID restaurantID items = (.ok order, w1))
    (hpersist : s.repo.CreateOrder env w1 order = (w2, none)) :
    (s.CreateOrder env js w userID restaurantID items).2 = .ok order ∧
    (s.CreateOrder env js w userID restaurantID items).1.db = w2.db ∧
    (∀ payload,
      js.MarshalCreated (domain.NewOrderCreatedEvent (env.uuid w1.uuids) order) = .ok payload →
      (s.CreateOrder env js w userID restaurantID items).1.writes
        = w.writes ++
          [{ addr := s.producer.brokers
             msg := { Topic := "orders", Key := order.ID, Value := payload }
             event := .created (domain.NewOrderCreatedEvent (env.uuid w1.uuids) order)
             err := env.busErr w.writes.length }]) ∧
    (∀ err,
      js.MarshalCreated (domain.NewOrderCreatedEvent (env.uuid w1.uuids) order) = .error err →
      (s.CreateOrder env js w userID restaurantID items).1.writes = w.writes ∧
      (s.CreateOrder env js w userID restaurantID items).1.logs
        = w.logs ++ [{ Level := "ERROR", Message := "Failed to marshal OrderCreatedEvent" },
                     { Level := "ERROR", Message := "Failed to publish order creation event" }]) := by
  have hlen : ¬ items.length = 0 := by
    intro h
    exact hi (List.length_eq_zero.mp h)
  have hb := buildOrder_items env w w1 userID restaurantID items order hbuild
  rcases ha : assignItemIDs env items w with ⟨items1, wa⟩
  simp only [buildOrder, ha, timeNow, uuidNew, Prod.mk.injEq] at hbuild
  obtain ⟨horder, hw1⟩ := hbuild
  have hrw := repository.CreateOrder_world s.repo env w1 order
  rw [hpersist] at hrw
  simp only at hrw
  obtain ⟨hw2w, hw2l, hw2u, _, _⟩ := hrw
  unfold OrderService.CreateOrder
  simp only [hu, hr, hlen, or_self, if_false, ha, timeNow, uuidNew, horder, hw1, hpersist]
  rw [hw2u]
  cases hm : js.MarshalCreated (domain.NewOrderCreatedEvent (env.uuid w1.uuids) order) with
  | error e =>
    simp [kafka.Producer.PublishOrderCreated, hm, logger.Logger.Error, logger.Logger.log,
      logger.Error, hw2w, hw2l, hb.2.2.2.2.2.2.2.2.1, hb.2.2.2.2.2.2.2.2.2]
  | ok payload =>
    cases hbus : env.busErr w.writes.length <;>
      simp [kafka.Producer.PublishOrderCreated, hm, kafka.Producer.WriteMessages,
        logger.Logger.Error, logger.Logger.Info, logger.Logger.log, hw2w,
        hb.2.2.2.2.2.2.2.2.1, hbus, kafka.OrdersTopic] <;> rfl

end service

namespace kafka

/-- The handler on a message that decodes, with a status write that succeeds:
one database call, then one call of the bus writer. -/
theorem handleOrderCreated_success (c : kafka.Consumer) (env : Env) (js : JSON)
    (w : World) (msg : kafka.Message) (event : domain.OrderCreatedEvent)
    (hdecode : js.UnmarshalCreated msg.Value = .ok event)
    (hstore : env.dbErr w.dbCalls = none) :
    (c.handleOrderCreated env js w msg).db.orders
      = w.db.orders.map (fun row =>
          if row.id = event.OrderID then
            { row with
              status :=
                if event.TotalAmount < 100 then "FAILED"
                else if event.TotalAmount > 50000 then "FAILED"
                else "CONFIRMED"
              updated_at := env.dbNow w.dbCalls
              version := row.version + 1 }
          else row) ∧
    (c.handleOrderCreated env js w msg).db.order_items = w.db.order_items ∧
    (c.handleOrderCreated env js w msg).dbCalls = w.dbCalls + 1 ∧
    (¬ event.TotalAmount < 100 → ¬ event.TotalAmount > 50000 →
      (c.handleOrderCreated env js w msg).writes
        = w.writes ++
          [{ addr := "localhost:9092,localhost:9094"
             msg :=
               { Topic := "order-status"
                 Key := event.OrderID
                 Value := js.MarshalConfirmed
                   { EventID := env.uuid w.uuids
                     OrderID := event.OrderID
                     ConfirmedAt := env.now w.clock } }
             event := .confirmed
               { EventID := env.uuid w.uuids
                 OrderID := event.OrderID
                 ConfirmedAt := env.now w.clock }
             err := env.busErr w.writes.length }] ∧
      (env.busErr w.writes.length = none →
        (c.handleOrderCreated env js w msg).topic "order-status"
          = w.topic "order-status" ++
            [{ Topic := "order-status"
               Key := event.OrderID
               Value := js.MarshalConfirmed
                 { EventID := env.uuid w.uuids
                   OrderID := event.OrderID
                   ConfirmedAt := env.now w.clock } }])) ∧
    (event.TotalAmount < 100 ∨ event.TotalAmount > 50000 →
      (c.handleOrderCreated env js w msg).writes
        = w.writes ++
          [{ addr := "localhost:9092,localhost:9094"
             msg :=
               { Topic := "order-status"
                 Key := event.OrderID
                 Value := js.MarshalFailed
                   { EventID := env.uuid w.uuids
                     OrderID := event.OrderID
                     Reason := "Validation Failed"
                     FailedAt := env.now w.clock } }
             event := .failed
               { EventID := env.uuid w.uuids
                 OrderID := event.OrderID
                 Reason := "Validation Failed"
                 FailedAt := env.now w.clock }
             err := env.busErr w.writes.length }] ∧
      (env.busErr w.writes.length = none →
        (c.handleOrderCreated env js w msg).topic "order-status"
          = w.topic "order-status" ++
            [{ Topic := "order-status"
               Key := event.OrderID
               Value := js.MarshalFailed
                 { EventID := env.uuid w.uuids
                   OrderID := event.OrderID
                   Reason := "Validation Failed"
                   FailedAt := env.now w.clock } }])) := by
  have hne : ¬ (domain.OrderStatusFailed = domain.OrderStatusConfirmed) := by decide
  unfold kafka.Consumer.handleOrderCreated
  simp only [hdecode]
  by_cases h1 : event.TotalAmount < 100
  · cases hb : env.busErr w.writes.length <;>
      simp [kafka.Consumer.chooseStatus, h1, hne, repository.OrderRepository.UpdateOrderStatus,
        repository.updateRow, domain.OrderStatusFailed, domain.OrderStatusConfirmed,
        logger.Logger.Error, logger.Logger.Warn, logger.Logger.Info, logger.Logger.log, hstore,
        timeNow, uuidNew, kafka.Producer.PublishedOrderFailed, kafka.Producer.PublishOrderConfirmed,
        kafka.Producer.WriteMessages, kafka.NewProducer, domain.NewOrderFailedEvent,
        domain.NewOrderConfirmedEvent, kafka.OrderStatusTopic, World.topic, hb]
  · by_cases h2 : event.TotalAmount > 50000
    · cases hb : env.busErr w.writes.length <;>
        simp [kafka.Consumer.chooseStatus, h1, h2, hne,
          repository.OrderRepository.UpdateOrderStatus, repository.updateRow,
          domain.OrderStatusFailed, domain.OrderStatusConfirmed,
          logger.Logger.Error, logger.Logger.Warn, logger.Logger.Info, logger.Logger.log, hstore,
          timeNow, uuidNew, kafka.Producer.PublishedOrderFailed,
          kafka.Producer.PublishOrderConfirmed, kafka.Producer.WriteMessages, kafka.NewProducer,
          domain.NewOrderFailedEvent, domain.NewOrderConfirmedEvent, kafka.OrderStatusTopic,
          World.topic, hb]
    · cases hb : env.busErr w.writes.length <;>
        simp [kafka.Consumer.chooseStatus, h1, h2, hne,
          repository.OrderRepository.UpdateOrderStatus, repository.updateRow,
          domain.OrderStatusFailed, domain.OrderStatusConfirmed,
          logger.Logger.Error, logger.Logger.Warn, logger.Logger.Info, logger.Logger.log, hstore,
          timeNow, uuidNew, kafka.Producer.PublishedOrderFailed,
          kafka.Producer.PublishOrderConfirmed, kafka.Producer.WriteMessages, kafka.NewProducer,
          domain.NewOrderFailedEvent, domain.NewOrderConfirmedEvent, kafka.OrderStatusTopic,
          World.topic, hb]

theorem handleOrderCreated_decode_error (c : Consumer) (env : Env) (js : JSON) (w : World)
    (msg : Message) (err : GoError) (h : js.UnmarshalCreated msg.Value = .error err) :
    (c.handleOrderCreated env js w msg).db = w.db ∧
    (c.handleOrderCreated env js w msg).dbCalls = w.dbCalls ∧
    (c.handleOrderCreated env js w msg).writes = w.writes := by
  unfold Consumer.handleOrderCreated
  simp [h, logger.Logger.Error, logger.Logger.log]

theorem handleOrderCreated_store_error (c : Consumer) (env : Env) (js : JSON) (w : World)
    (msg : Message) (event : domain.OrderCreatedEvent) (err : GoError)
    (hdecode : js.UnmarshalCreated msg.Value = .ok event)
    (hfail : env.dbErr w.dbCalls = some err) :
    (c.handleOrderCreated env js w msg).db = w.db ∧
    (c.handleOrderCreated env js w msg).dbCalls = w.dbCalls + 1 ∧
    (c.handleOrderCreated env js w msg).writes = w.writes := by
  unfold Consumer.handleOrderCreated
  simp only [hdecode]
  by_cases h1 : event.TotalAmount < 100
  · simp [Consumer.chooseStatus, h1, repository.OrderRepository.UpdateOrderStatus,
      logger.Logger.Error, logger.Logger.Warn, logger.Logger.Info, logger.Logger.log, hfail]
  · by_cases h2 : event.TotalAmount > 50000
    · simp [Consumer.chooseStatus, h1, h2, repository.OrderRepository.UpdateOrderStatus,
        logger.Logger.Error, logger.Logger.Warn, logger.Logger.Info, logger.Logger.log, hfail]
    · simp [Consumer.chooseStatus, h1, h2, repository.OrderRepository.UpdateOrderStatus,
        logger.Logger.Error, logger.Logger.Warn, logger.Logger.Info, logger.Logger.log, hfail]

/-- A pass of the loop that reads a message hands it to the handler and goes
on with the next pass, whatever the handler did. -/
theorem loop_step (c : Consumer) (env : Env) (js : JSON) (feed : Feed) (fuel pass : Nat)
    (w : World) (rs : ReaderState) (msg : Message)
    (hlive : feed.done pass = false) (hread : feed.fetch pass = .ok msg) :
    c.loop env js feed (fuel + 1) pass w rs
      = c.loop env js feed fuel (pass + 1) (c.handleOrderCreated env js w msg)
          (c.ReadMessage feed pass rs).1 := by
  rw [Consumer.loop]
  by_cases hg : c.reader.GroupID = ""
  · simp [hlive, Consumer.ReadMessage, hread, hg]
  · simp [hlive, Consumer.ReadMessage, hread, hg]

/-- The reader's state after the loop does not depend on the store, the bus,
the codec or the world: it is fixed by what was fetched. -/
theorem loop_reader_independent (c : Consumer) (env env' : Env) (js js' : JSON) (feed : Feed)
    (fuel pass : Nat) (w w' : World) (rs : ReaderState) :
    (c.loop env' js' feed fuel pass w' rs).2.1 = (c.loop env js feed fuel pass w rs).2.1 := by
  induction fuel generalizing pass w w' rs with
  | zero => simp [Consumer.loop]
  | succ fuel ih =>
    rw [Consumer.loop, Consumer.loop]
    by_cases hd : feed.done pass = true
    · simp [hd]
    · simp only [hd]
      rcases hr : c.ReadMessage feed pass rs with ⟨rs1, res⟩
      cases res with
      | error e => exact ih _ _ _ _
      | ok msg => exact ih _ _ _ _

/-- Offsets handed over for commit are never taken back by the loop. -/
theorem loop_commits_grow (c : Consumer) (env : Env) (js : JSON) (feed : Feed)
    (fuel pass : Nat) (w : World) (rs : ReaderState) (m : Message) (hm : m ∈ rs.commits) :
    m ∈ (c.loop env js feed fuel pass w rs).2.1.commits := by
  induction fuel generalizing pass w rs with
  | zero => simpa [Consumer.loop] using hm
  | succ fuel ih =>
    rw [Consumer.loop]
    by_cases hd : feed.done pass = true
    · simpa [hd] using hm
    · simp only [hd]
      have hgrow : m ∈ (c.ReadMessage feed pass rs).1.commits := by
        unfold Consumer.ReadMessage
        cases hf : feed.fetch pass with
        | error e => simpa using hm
        | ok m1 =>
          by_cases hg : c.reader.GroupID = ""
          · simpa [hg] using hm
          · simp [hg, hm]
      rcases hr : c.ReadMessage feed pass rs with ⟨rs1, res⟩
      rw [hr] at hgrow
      cases res with
      | error e => exact ih _ _ _ hgrow
      | ok msg => exact ih _ _ _ hgrow

end kafka

namespace orderapi

theorem foldl_requestItems (reqItems : List CreateOrderItemRequest)
    (acc : List domain.OrderItem) :
    reqItems.foldl
        (fun items item =>
          items ++ [({ ID := item.ItemID, ItemID := "", Name := item.Name, Price := item.Price,
                       Quantity := item.Quantity } : domain.OrderItem)])
        acc
      = acc ++ reqItems.map fun item =>
          ({ ID := item.ItemID, ItemID := "", Name := item.Name, Price := item.Price,
             Quantity := item.Quantity } : domain.OrderItem) := by
  induction reqItems generalizing acc with
  | nil => simp
  | cons item rest ih => simp [List.foldl_cons, ih]

theorem requestItems_eq_map (reqItems : List CreateOrderItemRequest) :
    requestItems reqItems
      = reqItems.map fun item =>
          ({ ID := item.ItemID, ItemID := "", Name := item.Name, Price := item.Price,
             Quantity := item.Quantity } : domain.OrderItem) := by
  have h := foldl_requestItems reqItems []
  simpa [requestItems] using h

end orderapi

namespace Sample

theorem totalLoop_items : domain.totalLoop env.fp items = 110 := by decide

theorem sum_items : domain.sumInListOrder env.fp items items.length = 110 := by
  rw [← domain.totalLoop_eq_sumInListOrder]
  exact totalLoop_items

theorem totalLoop_driftItems :
    domain.totalLoop Float64.separate driftItems = justBelow100 ∧
    domain.totalLoop Float64.fusedMulAdd driftItems = justBelow100 := by
  constructor <;> decide

theorem exactSum_driftItems : some (domain.exactSum driftItems) = (100 : F64).units? := by
  decide

theorem justBelow100_lt : justBelow100 < 100 := by decide

theorem uuid_nonempty (n : Nat) : env.uuid n ≠ "" := by
  simp only [env]
  rcases n with _ | _ | _ | _ | _ | _ | _ | _ | n <;> simp [List.getD]

theorem marshal_finite (e : domain.OrderCreatedEvent) (he : e.TotalAmount.isFinite = true)
    (_hp : ∀ item ∈ e.Items, item.Price.isFinite = true) :
    ∃ payload, json.MarshalCreated e = .ok payload :=
  ⟨"created:" ++ e.EventID ++ ":" ++ e.OrderID, by simp [json, he]⟩

theorem buildOrder_storeDown :
    service.buildOrder envStoreDown world "u1" "r1" items = (.ok builtOrder, worldBuilt) := by
  rw [service.buildOrder_eq]
  exact Prod.ext (congrArg Except.ok (by decide)) rfl

theorem buildOrder_env :
    service.buildOrder env world "u1" "r1" items = (.ok builtOrder, worldBuilt) := by
  rw [service.buildOrder_eq]
  exact Prod.ext (congrArg Except.ok (by decide)) rfl

theorem buildOrder_huge :
    service.buildOrder env world "u1" "r1" hugeItems = (.ok hugeOrder, worldHuge) := by
  rw [service.buildOrder_eq]
  exact Prod.ext (congrArg Except.ok (by decide)) rfl

end Sample

/-! ## Theorems -/

/-- C1, as the claim states it, fails: for items with prices 32.27, 12.69,
22.9 (twice) and 3.08 (three times) the exact sum of `Price × Quantity` is the
float64 100, but the total `NewOrder` computes is 99.99999999999999, whether
the machine rounds the products or fuses them into the additions. -/
theorem C1_new_order_total_counterexample :
    Sample.driftItems ≠ [] ∧
    some (domain.exactSum Sample.driftItems) = (100 : F64).units? ∧
    (∃ order : domain.Order,
      domain.NewOrder Float64.separate "o-1" 10 "u1" "r1" Sample.driftItems = .ok order ∧
      order.TotalAmount = Sample.justBelow100 ∧ order.TotalAmount < 100 ∧
      ¬ order.TotalAmount.units? = some (domain.exactSum Sample.driftItems)) ∧
    (∃ order : domain.Order,
      domain.NewOrder Float64.fusedMulAdd "o-1" 10 "u1" "r1" Sample.driftItems = .ok order ∧
      order.TotalAmount = Sample.justBelow100 ∧ order.TotalAmount < 100 ∧
      ¬ order.TotalAmount.units? = some (domain.exactSum Sample.driftItems)) := by
  refine ⟨by decide, Sample.exactSum_driftItems, ⟨_, rfl, ?_, ?_, ?_⟩, ⟨_, rfl, ?_, ?_, ?_⟩⟩
  · exact Sample.totalLoop_driftItems.1
  · show domain.totalLoop Float64.separate Sample.driftItems < 100
    rw [Sample.totalLoop_driftItems.1]
    exact Sample.justBelow100_lt
  · show ¬ (domain.totalLoop Float64.separate Sample.driftItems).units? = _
    rw [Sample.totalLoop_driftItems.1, Sample.exactSum_driftItems]
    decide
  · exact Sample.totalLoop_driftItems.2
  · show domain.totalLoop Float64.fusedMulAdd Sample.driftItems < 100
    rw [Sample.totalLoop_driftItems.2]
    exact Sample.justBelow100_lt
  · show ¬ (domain.totalLoop Float64.fusedMulAdd Sample.driftItems).units? = _
    rw [Sample.totalLoop_driftItems.2, Sample.exactSum_driftItems]
    decide

/-- C1, amended: for every item list, `NewOrder` returns an order whose
`TotalAmount` is the float64 sum of `Price × Quantity` taken in list order,
each line being added to the sum of the lines before it and the result rounded
to float64 (the product first, unless the machine fuses it into the
addition).  The total is the exact sum `Σ Price × Quantity` whenever no line
has to be rounded, which is the case when prices and quantities are not
negative and every quantity, every product `Price × Quantity` and every
partial sum is itself a float64. -/
theorem C1_new_order_total_is_float_sum (fp : Float64) (id : String) (now : Time)
    (userID restaurantID : String) (items : List domain.OrderItem) :
    ∃ order, domain.NewOrder fp id now userID restaurantID items = .ok order ∧
      order.TotalAmount = domain.sumInListOrder fp items items.length ∧
      (domain.noRounding fp 0 items = true →
        order.TotalAmount.units? = some (domain.exactSum items)) ∧
      (domain.exactlySummable 0 items = true →
        domain.noRounding fp 0 items = true ∧
        order.TotalAmount.units? = some (domain.exactSum items)) := by
  refine ⟨_, rfl, domain.totalLoop_eq_sumInListOrder fp items, ?_, ?_⟩
  · intro h
    have h1 := domain.foldl_units_of_noRounding fp items 0 0 rfl h
    simpa [domain.totalLoop] using h1
  · intro h
    refine ⟨?_, domain.totalLoop_units_of_exactlySummable fp items h⟩
    rw [F64.zero_eq]
    exact domain.noRounding_of_exactlySummable fp items 0 h

/-- Witness of amended C1: prices 12.5 (three times) and 0.25 (twice), where
every product and partial sum is a float64, give exactly 38, with separate and
with fused operations; prices 50 and 60 give exactly 110. -/
theorem C1_new_order_total_is_float_sum_witness :
    domain.exactlySummable 0 Sample.dyadicItems = true ∧
    domain.exactlySummable 0 Sample.items = true ∧
    some (domain.exactSum Sample.dyadicItems) = (38 : F64).units? ∧
    some (domain.exactSum Sample.items) = (110 : F64).units? ∧
    (∃ order : domain.Order,
      domain.NewOrder Float64.separate "o-1" 10 "u1" "r1" Sample.dyadicItems = .ok order ∧
      order.TotalAmount = domain.sumInListOrder Float64.separate Sample.dyadicItems
        Sample.dyadicItems.length ∧
      order.TotalAmount.units? = some (domain.exactSum Sample.dyadicItems)) ∧
    (∃ order : domain.Order,
      domain.NewOrder Float64.fusedMulAdd "o-1" 10 "u1" "r1" Sample.dyadicItems = .ok order ∧
      order.TotalAmount.units? = some (domain.exactSum Sample.dyadicItems)) ∧
    (∃ order : domain.Order,
      domain.NewOrder Float64.separate "o-1" 10 "u1" "r1" Sample.items = .ok order ∧
      order.TotalAmount.units? = some (domain.exactSum Sample.items)) ∧
    (domain.NewOrder Float64.separate "o-1" 10 "u1" "r1" Sample.dyadicItems).toOption.map
        (fun order => order.TotalAmount) = some 38 :=
  ⟨by decide, by decide, by decide, by decide,
    (C1_new_order_total_is_float_sum Float64.separate "o-1" 10 "u1" "r1"
      Sample.dyadicItems).elim fun order h => ⟨order, h.1, h.2.1, (h.2.2.2 (by decide)).2⟩,
    (C1_new_order_total_is_float_sum Float64.fusedMulAdd "o-1" 10 "u1" "r1"
      Sample.dyadicItems).elim fun order h => ⟨order, h.1, (h.2.2.2 (by decide)).2⟩,
    (C1_new_order_total_is_float_sum Float64.separate "o-1" 10 "u1" "r1"
      Sample.items).elim fun order h => ⟨order, h.1, h.2.2.1 (by decide)⟩,
    by decide⟩

/-- C2: the status the consumer chooses for an OrderCreated event depends on
the total amount `x` only: FAILED when `x < 100`, FAILED when `x > 50000`,
CONFIRMED otherwise; so 100 and 50000 give CONFIRMED, 99.99 and 50000.01 give
FAILED, and no other status is ever chosen. -/
theorem C2_validation_decision (c : kafka.Consumer) (w : World)
    (event : domain.OrderCreatedEvent) :
    (event.TotalAmount < 100 → (c.chooseStatus w event).1 = domain.OrderStatusFailed) ∧
    (event.TotalAmount > 50000 → (c.chooseStatus w event).1 = domain.OrderStatusFailed) ∧
    (¬ event.TotalAmount < 100 → ¬ event.TotalAmount > 50000 →
      (c.chooseStatus w event).1 = domain.OrderStatusConfirmed) ∧
    (event.TotalAmount = 100 → (c.chooseStatus w event).1 = domain.OrderStatusConfirmed) ∧
    (event.TotalAmount = 50000 → (c.chooseStatus w event).1 = domain.OrderStatusConfirmed) ∧
    (event.TotalAmount = 9999 / 100 → (c.chooseStatus w event).1 = domain.OrderStatusFailed) ∧
    (event.TotalAmount = 5000001 / 100 →
      (c.chooseStatus w event).1 = domain.OrderStatusFailed) ∧
    ((c.chooseStatus w event).1 = domain.OrderStatusConfirmed ∨
      (c.chooseStatus w event).1 = domain.OrderStatusFailed) := by
  unfold kafka.Consumer.chooseStatus
  refine ⟨?_, ?_, ?_, ?_, ?_, ?_, ?_, ?_⟩
  · intro h
    simp [h]
  · intro h
    by_cases h1 : event.TotalAmount < 100 <;> simp [h1, h]
  · intro h1 h2
    simp [h1, h2]
  · intro h
    have h1 : ¬ event.TotalAmount < 100 := by
      rw [h]
      decide
    have h2 : ¬ event.TotalAmount > 50000 := by
      rw [h]
      decide
    simp [h1, h2]
  · intro h
    have h1 : ¬ event.TotalAmount < 100 := by
      rw [h]
      decide
    have h2 : ¬ event.TotalAmount > 50000 := by
      rw [h]
      decide
    simp [h1, h2]
  · intro h
    have h1 : event.TotalAmount < 100 := by
      rw [h]
      decide
    simp [h1]
  · intro h
    have h2 : event.TotalAmount > 50000 := by
      rw [h]
      decide
    by_cases h1 : event.TotalAmount < 100 <;> simp [h1, h2]
  · by_cases h1 : event.TotalAmount < 100
    · simp [h1]
    · by_cases h2 : event.TotalAmount > 50000 <;> simp [h1, h2]

/-- Witness of C2: the four amounts named in the claim. -/
theorem C2_validation_decision_witness :
    (Sample.consumer.chooseStatus Sample.world (Sample.createdEvent 100)).1
      = domain.OrderStatusConfirmed ∧
    (Sample.consumer.chooseStatus Sample.world (Sample.createdEvent 50000)).1
      = domain.OrderStatusConfirmed ∧
    (Sample.consumer.chooseStatus Sample.world (Sample.createdEvent (9999 / 100))).1
      = domain.OrderStatusFailed ∧
    (Sample.consumer.chooseStatus Sample.world (Sample.createdEvent (5000001 / 100))).1
      = domain.OrderStatusFailed :=
  ⟨(C2_validation_decision Sample.consumer Sample.world (Sample.createdEvent 100)).2.2.2.1 rfl,
   (C2_validation_decision Sample.consumer Sample.world
      (Sample.createdEvent 50000)).2.2.2.2.1 rfl,
   (C2_validation_decision Sample.consumer Sample.world
      (Sample.createdEvent (9999 / 100))).2.2.2.2.2.1 rfl,
   (C2_validation_decision Sample.consumer Sample.world
      (Sample.createdEvent (5000001 / 100))).2.2.2.2.2.2.1 rfl⟩

/-- C3: `OrderService.CreateOrder` fails with an invalid-input error whenever
`userID` is empty, or `restaurantID` is empty, or `items` is empty; it then
returns no order and leaves the world as it was: nothing is written to the
order store, no database call is made, and nothing is handed to the bus. -/
theorem C3_create_order_invalid_input (s : service.OrderService) (env : Env) (js : JSON)
    (w : World) (userID restaurantID : String) (items : List domain.OrderItem)
    (h : userID = "" ∨ restaurantID = "" ∨ items = []) :
    (∃ err, s.CreateOrder env js w userID restaurantID items = (w, .error err) ∧
      (err = .errorString "invalid user_id or restaurant_id" ∨
        err = .errorString "order must have at least one item")) ∧
    (s.CreateOrder env js w userID restaurantID items).1.db = w.db ∧
    (s.CreateOrder env js w userID restaurantID items).1.dbCalls = w.dbCalls ∧
    (s.CreateOrder env js w userID restaurantID items).1.writes = w.writes := by
  unfold service.OrderService.CreateOrder
  by_cases h1 : userID = "" ∨ restaurantID = ""
  · simp [h1]
  · have h2 : items = [] := by
      rcases h with h | h | h
      · exact absurd (Or.inl h) h1
      · exact absurd (Or.inr h) h1
      · exact h
    simp [h1, h2]

/-- Witness of C3: an empty user id, an empty restaurant id, an empty item list. -/
theorem C3_create_order_invalid_input_witness :
    ((∃ err, Sample.orderService.CreateOrder Sample.env Sample.json Sample.world "" "r1"
          Sample.items = (Sample.world, .error err) ∧
        (err = .errorString "invalid user_id or restaurant_id" ∨
          err = .errorString "order must have at least one item")) ∧
      (Sample.orderService.CreateOrder Sample.env Sample.json Sample.world "" "r1"
        Sample.items).1.db = Sample.world.db ∧
      (Sample.orderService.CreateOrder Sample.env Sample.json Sample.world "" "r1"
        Sample.items).1.dbCalls = Sample.world.dbCalls ∧
      (Sample.orderService.CreateOrder Sample.env Sample.json Sample.world "" "r1"
        Sample.items).1.writes = Sample.world.writes) ∧
    (Sample.orderService.CreateOrder Sample.env Sample.json Sample.world "u1" "r1" []).2
      = .error (.errorString "order must have at least one item") :=
  ⟨C3_create_order_invalid_input Sample.orderService Sample.env Sample.json Sample.world
      "" "r1" Sample.items (Or.inl rfl),
    rfl⟩

/-- C4, as the claim states it, fails: on an empty item list `NewOrder`
returns no error. -/
theorem C4_new_order_empty_items_counterexample :
    ¬ ∃ err, domain.NewOrder Float64.separate "o-1" 10 "u1" "r1" [] = .error err := by
  rintro ⟨err, h⟩
  simp [domain.NewOrder] at h

/-- C4, amended: `NewOrder` never fails.  On an empty item list it returns an
order with no items, total 0, status PENDING and version 1; and for no item
list at all does it return an error. -/
theorem C4_new_order_never_fails (fp : Float64) (id : String) (now : Time)
    (userID restaurantID : String) :
    domain.NewOrder fp id now userID restaurantID []
      = .ok { ID := id, UserID := userID, RestaurantID := restaurantID, Items := [],
              TotalAmount := 0, Status := domain.OrderStatusPending, CreatedAt := now,
              UpdatedAt := now, Version := 1 } ∧
    ∀ items err, domain.NewOrder fp id now userID restaurantID items ≠ .error err := by
  constructor
  · rfl
  · intro items err h
    simp [domain.NewOrder] at h

/-- C5, as the claim states it, fails: an order whose `Version` is the largest
Go `int`, 9223372036854775807, has `Version` -9223372036854775808 after
`Confirm`, `Fail` or `Cancel`, not the version before plus 1. -/
theorem C5_version_wraps_counterexample :
    Sample.lastVersionOrder.Version = 9223372036854775807 ∧
    (Sample.lastVersionOrder.Confirm 12).Version = -9223372036854775808 ∧
    (Sample.lastVersionOrder.Fail 12).Version = -9223372036854775808 ∧
    (Sample.lastVersionOrder.Cancel 12).Version = -9223372036854775808 ∧
    ¬ (Sample.lastVersionOrder.Confirm 12).Version = Sample.lastVersionOrder.Version + 1 ∧
    ¬ (Sample.lastVersionOrder.Fail 12).Version = Sample.lastVersionOrder.Version + 1 ∧
    ¬ (Sample.lastVersionOrder.Cancel 12).Version = Sample.lastVersionOrder.Version + 1 := by
  decide

/-- C5, amended: whatever the prior status, `Confirm` sets the status to
CONFIRMED, `Fail` to FAILED and `Cancel` to CANCELLED; each is defined on
every order (no transition is rejected) and leaves `ID`, `UserID`,
`RestaurantID`, `Items`, `TotalAmount` and `CreatedAt` as they were; each
replaces `Version` by `Version + 1` in Go `int` arithmetic, which is the
version before plus exactly 1 for every version below the largest `int`
9223372036854775807 and is -9223372036854775808 for that one. -/
theorem C5_transitions (now : Time) (o : domain.Order) :
    ((o.Confirm now).Status = "CONFIRMED" ∧
      (o.Confirm now).Version = wrapInt64 (o.Version + 1) ∧
      (o.Confirm now).ID = o.ID ∧ (o.Confirm now).UserID = o.UserID ∧
      (o.Confirm now).RestaurantID = o.RestaurantID ∧ (o.Confirm now).Items = o.Items ∧
      (o.Confirm now).TotalAmount = o.TotalAmount ∧ (o.Confirm now).CreatedAt = o.CreatedAt) ∧
    ((o.Fail now).Status = "FAILED" ∧
      (o.Fail now).Version = wrapInt64 (o.Version + 1) ∧
      (o.Fail now).ID = o.ID ∧ (o.Fail now).UserID = o.UserID ∧
      (o.Fail now).RestaurantID = o.RestaurantID ∧ (o.Fail now).Items = o.Items ∧
      (o.Fail now).TotalAmount = o.TotalAmount ∧ (o.Fail now).CreatedAt = o.CreatedAt) ∧
    ((o.Cancel now).Status = "CANCELLED" ∧
      (o.Cancel now).Version = wrapInt64 (o.Version + 1) ∧
      (o.Cancel now).ID = o.ID ∧ (o.Cancel now).UserID = o.UserID ∧
      (o.Cancel now).RestaurantID = o.RestaurantID ∧ (o.Cancel now).Items = o.Items ∧
      (o.Cancel now).TotalAmount = o.TotalAmount ∧ (o.Cancel now).CreatedAt = o.CreatedAt) ∧
    (-9223372036854775808 ≤ o.Version → o.Version < 9223372036854775807 →
      (o.Confirm now).Version = o.Version + 1 ∧ (o.Fail now).Version = o.Version + 1 ∧
      (o.Cancel now).Version = o.Version + 1) ∧
    (o.Version = 9223372036854775807 →
      (o.Confirm now).Version = -9223372036854775808 ∧
      (o.Fail now).Version = -9223372036854775808 ∧
      (o.Cancel now).Version = -9223372036854775808) := by
  refine ⟨⟨rfl, rfl, rfl, rfl, rfl, rfl, rfl, rfl⟩, ⟨rfl, rfl, rfl, rfl, rfl, rfl, rfl, rfl⟩,
    ⟨rfl, rfl, rfl, rfl, rfl, rfl, rfl, rfl⟩, ?_, ?_⟩
  · intro hlo hhi
    have hw : wrapInt64 (o.Version + 1) = o.Version + 1 := by
      unfold wrapInt64
      omega
    exact ⟨hw, hw, hw⟩
  · intro hmax
    have hw : wrapInt64 (o.Version + 1) = -9223372036854775808 := by
      unfold wrapInt64
      omega
    exact ⟨hw, hw, hw⟩

/-- Witness of amended C5: a pending order of version 1 is confirmed with
version 2; the order of the largest version wraps around. -/
theorem C5_transitions_witness :
    (-9223372036854775808 ≤ Sample.order.Version ∧
      Sample.order.Version < 9223372036854775807) ∧
    ((Sample.order.Confirm 12).Version = Sample.order.Version + 1 ∧
      (Sample.order.Fail 12).Version = Sample.order.Version + 1 ∧
      (Sample.order.Cancel 12).Version = Sample.order.Version + 1) ∧
    (Sample.order.Confirm 12).Status = "CONFIRMED" ∧
    (Sample.order.Confirm 12).Version = 2 ∧
    ((Sample.lastVersionOrder.Confirm 12).Version = -9223372036854775808 ∧
      (Sample.lastVersionOrder.Fail 12).Version = -9223372036854775808 ∧
      (Sample.lastVersionOrder.Cancel 12).Version = -9223372036854775808) :=
  ⟨⟨by decide, by decide⟩,
    (C5_transitions 12 Sample.order).2.2.2.1 (by decide) (by decide),
    (C5_transitions 12 Sample.order).1.1, by decide,
    (C5_transitions 12 Sample.lastVersionOrder).2.2.2.2 rfl⟩

/-- C6, as the claim states it, fails: an order last updated at instant 10,
confirmed, failed or cancelled while the clock reads 5, ends with an
`UpdatedAt` below the one it had. -/
theorem C6_updated_at_counterexample :
    ¬ (Sample.order.UpdatedAt ≤ (Sample.order.Confirm 5).UpdatedAt) ∧
    ¬ (Sample.order.UpdatedAt ≤ (Sample.order.Fail 5).UpdatedAt) ∧
    ¬ (Sample.order.UpdatedAt ≤ (Sample.order.Cancel 5).UpdatedAt) := by
  decide

/-- C6, amended: after `Confirm`, `Fail` or `Cancel` the order's `UpdatedAt`
is the clock reading taken by the call, whatever it was before; so it is
greater than or equal to the previous `UpdatedAt` exactly when that reading is
not earlier than the previous `UpdatedAt`. -/
theorem C6_updated_at_is_clock_reading (now : Time) (o : domain.Order) :
    ((o.Confirm now).UpdatedAt = now ∧
      (o.UpdatedAt ≤ (o.Confirm now).UpdatedAt ↔ o.UpdatedAt ≤ now)) ∧
    ((o.Fail now).UpdatedAt = now ∧
      (o.UpdatedAt ≤ (o.Fail now).UpdatedAt ↔ o.UpdatedAt ≤ now)) ∧
    ((o.Cancel now).UpdatedAt = now ∧
      (o.UpdatedAt ≤ (o.Cancel now).UpdatedAt ↔ o.UpdatedAt ≤ now)) :=
  ⟨⟨rfl, Iff.rfl⟩, ⟨rfl, Iff.rfl⟩, ⟨rfl, Iff.rfl⟩⟩

/-- Witness of amended C6: the order last updated at instant 10, with the
clock at 12 and with the clock at 5. -/
theorem C6_updated_at_is_clock_reading_witness :
    ((Sample.order.Confirm 12).UpdatedAt = 12 ∧
      Sample.order.UpdatedAt ≤ (Sample.order.Confirm 12).UpdatedAt) ∧
    ((Sample.order.Fail 5).UpdatedAt = 5 ∧
      ¬ Sample.order.UpdatedAt ≤ (Sample.order.Fail 5).UpdatedAt) :=
  ⟨⟨(C6_updated_at_is_clock_reading 12 Sample.order).1.1,
      (C6_updated_at_is_clock_reading 12 Sample.order).1.2.mpr (by decide)⟩,
    ⟨(C6_updated_at_is_clock_reading 5 Sample.order).2.1.1,
      fun h => absurd ((C6_updated_at_is_clock_reading 5 Sample.order).2.1.2.mp h)
        (by decide)⟩⟩

/-- C7: for every creation message whose payload decodes to an OrderCreated
event and whose status write succeeds, the handler makes one database call,
which sets, on the rows whose id is the event's order id and on no other row,
the status the validation rule gives for the event's total (FAILED below 100,
FAILED above 50000, CONFIRMED otherwise), the database's clock reading and the
version plus 1; it then makes exactly one publish call, from a writer for
"localhost:9092,localhost:9094", on topic "order-status", keyed by the order
id: an OrderConfirmed event when the status is CONFIRMED, an OrderFailed event
when it is FAILED, with the order id of the creation event.  The outcome of
that call is the answer of the bus: when the bus accepts it, the topic gains
exactly that message. -/
theorem C7_handler_updates_then_publishes (c : kafka.Consumer) (env : Env) (js : JSON)
    (w : World) (msg : kafka.Message) (event : domain.OrderCreatedEvent)
    (hdecode : js.UnmarshalCreated msg.Value = .ok event)
    (hstore : env.dbErr w.dbCalls = none) :
    (c.handleOrderCreated env js w msg).db.orders
      = w.db.orders.map (fun row =>
          if row.id = event.OrderID then
            { row with
              status :=
                if event.TotalAmount < 100 then "FAILED"
                else if event.TotalAmount > 50000 then "FAILED"
                else "CONFIRMED"
              updated_at := env.dbNow w.dbCalls
              version := row.version + 1 }
          else row) ∧
    (c.handleOrderCreated env js w msg).db.order_items = w.db.order_items ∧
    (c.handleOrderCreated env js w msg).dbCalls = w.dbCalls + 1 ∧
    (¬ event.TotalAmount < 100 → ¬ event.TotalAmount > 50000 →
      (c.handleOrderCreated env js w msg).writes
        = w.writes ++
          [{ addr := "localhost:9092,localhost:9094"
             msg :=
               { Topic := "order-status"
                 Key := event.OrderID
                 Value := js.MarshalConfirmed
                   { EventID := env.uuid w.uuids
                     OrderID := event.OrderID
                     ConfirmedAt := env.now w.clock } }
             event := .confirmed
               { EventID := env.uuid w.uuids
                 OrderID := event.OrderID
                 ConfirmedAt := env.now w.clock }
             err := env.busErr w.writes.length }] ∧
      (env.busErr w.writes.length = none →
        (c.handleOrderCreated env js w msg).topic "order-status"
          = w.topic "order-status" ++
            [{ Topic := "order-status"
               Key := event.OrderID
               Value := js.MarshalConfirmed
                 { EventID := env.uuid w.uuids
                   OrderID := event.OrderID
                   ConfirmedAt := env.now w.clock } }])) ∧
    (event.TotalAmount < 100 ∨ event.TotalAmount > 50000 →
      (c.handleOrderCreated env js w msg).writes
        = w.writes ++
          [{ addr := "localhost:9092,localhost:9094"
             msg :=
               { Topic := "order-status"
                 Key := event.OrderID
                 Value := js.MarshalFailed
                   { EventID := env.uuid w.uuids
                     OrderID := event.OrderID
                     Reason := "Validation Failed"
                     FailedAt := env.now w.clock } }
             event := .failed
               { EventID := env.uuid w.uuids
                 OrderID := event.OrderID
                 Reason := "Validation Failed"
                 FailedAt := env.now w.clock }
             err := env.busErr w.writes.length }] ∧
      (env.busErr w.writes.length = none →
        (c.handleOrderCreated env js w msg).topic "order-status"
          = w.topic "order-status" ++
            [{ Topic := "order-status"
               Key := event.OrderID
               Value := js.MarshalFailed
                 { EventID := env.uuid w.uuids
                   OrderID := event.OrderID
                   Reason := "Validation Failed"
                   FailedAt := env.now w.clock } }])) :=
  kafka.handleOrderCreated_success c env js w msg event hdecode hstore

/-- Witness of C7: a store holding the pending orders "o-low" (total 45) and
"uuid-2" (total 110).  The creation message of "o-low" sets that row, and no
other, to FAILED with version 2 and is followed by one OrderFailed write; the
creation message of "uuid-2" sets that row, and no other, to CONFIRMED with
version 2 and is followed by one OrderConfirmed write. -/
theorem C7_handler_updates_then_publishes_witness :
    (Sample.json.UnmarshalCreated Sample.lowMessage.Value = .ok Sample.lowEvent ∧
      Sample.json.UnmarshalCreated Sample.publishedMessage.Value = .ok Sample.publishedEvent ∧
      Sample.env.dbErr Sample.storedWorld.dbCalls = none) ∧
    (Sample.consumer.handleOrderCreated Sample.env Sample.json Sample.storedWorld
        Sample.lowMessage).db.orders
      = [ { id := "o-low", user_id := "u1", restaurant_id := "r1", total_amount := 45,
            status := "FAILED", created_at := 900, updated_at := 2000, version := 2 },
          { id := "uuid-2", user_id := "u1", restaurant_id := "r1", total_amount := 110,
            status := "PENDING", created_at := 1000, updated_at := 1000, version := 1 } ] ∧
    (Sample.consumer.handleOrderCreated Sample.env Sample.json Sample.storedWorld
        Sample.lowMessage).writes
      = [ { addr := "localhost:9092,localhost:9094"
            msg := { Topic := "order-status", Key := "o-low",
                     Value := "failed:uuid-0:o-low:Validation Failed" }
            event := .failed { EventID := "uuid-0", OrderID := "o-low",
                               Reason := "Validation Failed", FailedAt := 1000 }
            err := none } ] ∧
    (Sample.consumer.handleOrderCreated Sample.env Sample.json Sample.storedWorld
        Sample.publishedMessage).db.orders
      = [ { id := "o-low", user_id := "u1", restaurant_id := "r1", total_amount := 45,
            status := "PENDING", created_at := 900, updated_at := 900, version := 1 },
          { id := "uuid-2", user_id := "u1", restaurant_id := "r1", total_amount := 110,
            status := "CONFIRMED", created_at := 1000, updated_at := 2000, version := 2 } ] ∧
    (Sample.consumer.handleOrderCreated Sample.env Sample.json Sample.storedWorld
        Sample.publishedMessage).writes
      = [ { addr := "localhost:9092,localhost:9094"
            msg := { Topic := "order-status", Key := "uuid-2",
                     Value := "confirmed:uuid-0:uuid-2" }
            event := .confirmed { EventID := "uuid-0", OrderID := "uuid-2",
                                  ConfirmedAt := 1000 }
            err := none } ] :=
  have hlow := C7_handler_updates_then_publishes Sample.consumer Sample.env Sample.json
    Sample.storedWorld Sample.lowMessage Sample.lowEvent rfl rfl
  have hpub := C7_handler_updates_then_publishes Sample.consumer Sample.env Sample.json
    Sample.storedWorld Sample.publishedMessage Sample.publishedEvent rfl rfl
  ⟨⟨rfl, rfl, rfl⟩, hlow.1.trans (by decide),
    (hlow.2.2.2.2 (Or.inl (by decide))).1.trans (by decide),
    hpub.1.trans (by decide),
    (hpub.2.2.2.1 (by decide) (by decide)).1.trans (by decide)⟩

/-- C8, as the claim states it, fails: for the creation message of an order
with total 45 the handler publishes one OrderFailed event, whose reason is
"Validation Failed" and not "amount too low". -/
theorem C8_failed_reason_counterexample :
    Sample.lowEvent.TotalAmount = 45 ∧
    (Sample.consumer.handleOrderCreated Sample.env Sample.json Sample.world
        Sample.lowMessage).writes.map (fun bw => bw.event)
      = [.failed { EventID := "uuid-0", OrderID := "o-low", Reason := "Validation Failed",
                   FailedAt := 1000 }] ∧
    ¬ ∃ bw ∈ (Sample.consumer.handleOrderCreated Sample.env Sample.json Sample.world
        Sample.lowMessage).writes,
      ∃ e : domain.OrderFailedEvent, bw.event = .failed e ∧ e.Reason = "amount too low" := by
  have hw : (Sample.consumer.handleOrderCreated Sample.env Sample.json Sample.world
        Sample.lowMessage).writes
      = [ { addr := "localhost:9092,localhost:9094",
            msg := { Topic := "order-status", Key := "o-low",
                     Value := "failed:uuid-0:o-low:Validation Failed" },
            event := .failed { EventID := "uuid-0", OrderID := "o-low",
                               Reason := "Validation Failed", FailedAt := 1000 },
            err := none } ] := by
    decide
  refine ⟨rfl, ?_, ?_⟩
  · rw [hw]
    rfl
  · rw [hw]
    simp

/-- C8, amended: when the consumer rejects an order (total below 100 or above
50000) the OrderFailed event it publishes carries the fixed reason
"Validation Failed" in both cases; the rule that rejected the order is named
only in the warning the handler logs, "Order rejected: amount too low" for a
total below 100 and "Order rejected: amount too high" for a total above
50000. -/
theorem C8_failed_reason_is_fixed (c : kafka.Consumer) (env : Env) (js : JSON)
    (w : World) (msg : kafka.Message) (event : domain.OrderCreatedEvent)
    (hdecode : js.UnmarshalCreated msg.Value = .ok event)
    (hstore : env.dbErr w.dbCalls = none)
    (hrej : event.TotalAmount < 100 ∨ event.TotalAmount > 50000) :
    (∃ bw, ∃ e : domain.OrderFailedEvent,
      (c.handleOrderCreated env js w msg).writes = w.writes ++ [bw] ∧
      bw.event = .failed e ∧ e.Reason = "Validation Failed" ∧ e.OrderID = event.OrderID ∧
      bw.msg.Value = js.MarshalFailed e) ∧
    (event.TotalAmount < 100 →
      ({ Level := "WARN", Message := "Order rejected: amount too low" } : logger.Entry)
        ∈ (c.handleOrderCreated env js w msg).logs) ∧
    (event.TotalAmount > 50000 →
      ({ Level := "WARN", Message := "Order rejected: amount too high" } : logger.Entry)
        ∈ (c.handleOrderCreated env js w msg).logs) := by
  have hne : ¬ (domain.OrderStatusFailed = domain.OrderStatusConfirmed) := by decide
  unfold kafka.Consumer.handleOrderCreated
  simp only [hdecode]
  by_cases h1 : event.TotalAmount < 100
  · have h2 : ¬ event.TotalAmount > 50000 := by
      intro h2
      have h3 : (50000 : F64) < 100 := F64.lt_trans' h2 h1
      exact absurd h3 (by decide)
    cases hb : env.busErr w.writes.length <;>
      simp [kafka.Consumer.chooseStatus, h1, h2, hne,
        repository.OrderRepository.UpdateOrderStatus,
        logger.Logger.Error, logger.Logger.Warn, logger.Logger.Info, logger.Logger.log, hstore,
        timeNow, uuidNew, kafka.Producer.PublishedOrderFailed, kafka.Producer.WriteMessages,
        kafka.NewProducer, domain.NewOrderFailedEvent, logger.Warn, hb]
  · have h2 : event.TotalAmount > 50000 := by
      rcases hrej with h | h
      · exact absurd h h1
      · exact h
    cases hb : env.busErr w.writes.length <;>
      simp [kafka.Consumer.chooseStatus, h1, h2, hne,
        repository.OrderRepository.UpdateOrderStatus,
        logger.Logger.Error, logger.Logger.Warn, logger.Logger.Info, logger.Logger.log, hstore,
        timeNow, uuidNew, kafka.Producer.PublishedOrderFailed, kafka.Producer.WriteMessages,
        kafka.NewProducer, domain.NewOrderFailedEvent, logger.Warn, hb]

/-- Witness of amended C8: the creation message of an order with total 45. -/
theorem C8_failed_reason_is_fixed_witness :
    (Sample.json.UnmarshalCreated Sample.lowMessage.Value = .ok Sample.lowEvent ∧
      Sample.env.dbErr Sample.world.dbCalls = none ∧
      (Sample.lowEvent.TotalAmount < 100 ∨ Sample.lowEvent.TotalAmount > 50000)) ∧
    ∃ bw, ∃ e : domain.OrderFailedEvent,
      (Sample.consumer.handleOrderCreated Sample.env Sample.json Sample.world
        Sample.lowMessage).writes = Sample.world.writes ++ [bw] ∧
      bw.event = .failed e ∧ e.Reason = "Validation Failed" ∧
      e.OrderID = Sample.lowEvent.OrderID ∧ bw.msg.Value = Sample.json.MarshalFailed e :=
  ⟨⟨rfl, rfl, Or.inl (by decide)⟩,
    (C8_failed_reason_is_fixed Sample.consumer Sample.env Sample.json Sample.world
      Sample.lowMessage Sample.lowEvent rfl rfl (Or.inl (by decide))).1⟩

/-- C9, as the claim states it, fails: for user "u1", restaurant "r1" and
items with prices 32.27, 12.69, 22.9 (twice) and 3.08 (three times) the sum
`Σ price×quantity` is exactly 100, which lies between 100 and 50000; with a
store and a bus that accept every call `CreateOrder` stores the order with
total 99.99999999999999, not 100, and publishes the event with that total;
when the consumer handles the event the stored status becomes FAILED and an
OrderFailed event is published. -/
theorem C9_end_to_end_counterexample :
    some (domain.exactSum Sample.driftItems) = (100 : F64).units? ∧
    (100 : F64) ≤ 100 ∧ (100 : F64) ≤ 50000 ∧
    (Sample.orderService.CreateOrder Sample.env Sample.json Sample.world "u1" "r1"
        Sample.driftItems).1.db.orders
      = [ { id := "uuid-4", user_id := "u1", restaurant_id := "r1",
            total_amount := Sample.justBelow100, status := "PENDING", created_at := 1000,
            updated_at := 1000, version := 1 } ] ∧
    ¬ Sample.justBelow100 = 100 ∧
    (Sample.orderService.CreateOrder Sample.env Sample.json Sample.world "u1" "r1"
        Sample.driftItems).1.writes.map (fun bw => (bw.msg, bw.event, bw.err))
      = [(Sample.driftMessage, .created Sample.driftEvent, none)] ∧
    Sample.json.UnmarshalCreated Sample.driftMessage.Value = .ok Sample.driftEvent ∧
    (Sample.consumer.handleOrderCreated Sample.env Sample.json
        (Sample.orderService.CreateOrder Sample.env Sample.json Sample.world "u1" "r1"
          Sample.driftItems).1 Sample.driftMessage).db.orders
      = [ { id := "uuid-4", user_id := "u1", restaurant_id := "r1",
            total_amount := Sample.justBelow100, status := "FAILED", created_at := 1000,
            updated_at := 2007, version := 2 } ] ∧
    (Sample.consumer.handleOrderCreated Sample.env Sample.json
        (Sample.orderService.CreateOrder Sample.env Sample.json Sample.world "u1" "r1"
          Sample.driftItems).1 Sample.driftMessage).writes.map (fun bw => bw.event)
      = [ .created Sample.driftEvent,
          .failed { EventID := "uuid-6", OrderID := "uuid-4", Reason := "Validation Failed",
                    FailedAt := 1001 } ] := by
  refine ⟨Sample.exactSum_driftItems, by decide, by decide, by decide, by decide, by decide,
    rfl, by decide, by decide⟩

/-- C9, amended: end to end, when the store and the bus answer every call
with success and `json.Marshal` encodes every event whose numbers are finite.
For a create request with non-empty `userID` and `restaurantID` and a
non-empty item list whose total, the float64 sum of `price×quantity` in list
order that `NewOrder` computes, lies between 100 and 50000 inclusive,
`CreateOrder` returns an order with that total, status PENDING and version 1,
stores its row and its item rows, and publishes on topic "orders" an
OrderCreated event with the same order id, user id, restaurant id, items and
total.  When the consumer then handles a message that decodes to that event,
the stored row of the order has status CONFIRMED and version 2, and an
OrderConfirmed event with the same order id is published on topic
"order-status". -/
theorem C9_end_to_end_confirmed (s : service.OrderService) (c : kafka.Consumer) (env : Env)
    (js : JSON) (w : World) (userID restaurantID : String) (items : List domain.OrderItem)
    (hu : userID ≠ "") (hr : restaurantID ≠ "") (hi : items ≠ [])
    (hlo : 100 ≤ domain.sumInListOrder env.fp items items.length)
    (hhi : domain.sumInListOrder env.fp items items.length ≤ 50000)
    (hstore : ∀ k, env.dbErr k = none) (hbus : ∀ k, env.busErr k = none)
    (hjson : ∀ e : domain.OrderCreatedEvent, e.TotalAmount.isFinite = true →
      (∀ item ∈ e.Items, item.Price.isFinite = true) →
      ∃ payload, js.MarshalCreated e = .ok payload) :
    ∃ order w1 eventID payload,
      s.CreateOrder env js w userID restaurantID items = (w1, .ok order) ∧
      order.TotalAmount = domain.sumInListOrder env.fp items items.length ∧
      order.Status = "PENDING" ∧ order.Version = 1 ∧
      order.UserID = userID ∧ order.RestaurantID = restaurantID ∧
      order.Items.map (fun it => (it.ItemID, it.Name, it.Price, it.Quantity))
        = items.map (fun it => (it.ItemID, it.Name, it.Price, it.Quantity)) ∧
      w1.db.orders = w.db.orders ++
        [{ id := order.ID
           user_id := userID
           restaurant_id := restaurantID
           total_amount := domain.sumInListOrder env.fp items items.length
           status := "PENDING"
           created_at := order.CreatedAt
           updated_at := order.UpdatedAt
           version := 1 }] ∧
      w1.db.order_items = w.db.order_items ++
        order.Items.map (fun item =>
          { id := item.ID
            order_id := order.ID
            item_id := item.ItemID
            name := item.Name
            price := item.Price
            quantity := item.Quantity
            created_at := order.CreatedAt }) ∧
      js.MarshalCreated
          { EventID := eventID
            OrderID := order.ID
            UserID := userID
            RestaurantID := restaurantID
            Items := order.Items
            TotalAmount := domain.sumInListOrder env.fp items items.length
            CreatedAt := order.CreatedAt } = .ok payload ∧
      w1.writes = w.writes ++
        [{ addr := s.producer.brokers
           msg := { Topic := "orders", Key := order.ID, Value := payload }
           event := .created
             { EventID := eventID
               OrderID := order.ID
               UserID := userID
               RestaurantID := restaurantID
               Items := order.Items
               TotalAmount := domain.sumInListOrder env.fp items items.length
               CreatedAt := order.CreatedAt }
           err := none }] ∧
      w1.topic "orders"
        = w.topic "orders" ++ [{ Topic := "orders", Key := order.ID, Value := payload }] ∧
      ∀ msg : kafka.Message,
        js.UnmarshalCreated msg.Value
          = .ok { EventID := eventID
                  OrderID := order.ID
                  UserID := userID
                  RestaurantID := restaurantID
                  Items := order.Items
                  TotalAmount := domain.sumInListOrder env.fp items items.length
                  CreatedAt := order.CreatedAt } →
        (c.handleOrderCreated env js w1 msg).db.orders
          = w1.db.orders.map (fun row =>
              if row.id = order.ID then
                { row with
                  status := "CONFIRMED"
                  updated_at := env.dbNow w1.dbCalls
                  version := row.version + 1 }
              else row) ∧
        ({ id := order.ID
           user_id := userID
           restaurant_id := restaurantID
           total_amount := domain.sumInListOrder env.fp items items.length
           status := "CONFIRMED"
           created_at := order.CreatedAt
           updated_at := env.dbNow w1.dbCalls
           version := 2 } : repository.OrderRow)
          ∈ (c.handleOrderCreated env js w1 msg).db.orders ∧
        (c.handleOrderCreated env js w1 msg).writes
          = w1.writes ++
            [{ addr := "localhost:9092,localhost:9094"
               msg :=
                 { Topic := "order-status"
                   Key := order.ID
                   Value := js.MarshalConfirmed
                     { EventID := env.uuid w1.uuids
                       OrderID := order.ID
                       ConfirmedAt := env.now w1.clock } }
               event := .confirmed
                 { EventID := env.uuid w1.uuids
                   OrderID := order.ID
                   ConfirmedAt := env.now w1.clock }
               err := none }] ∧
        (c.handleOrderCreated env js w1 msg).topic "order-status"
          = w1.topic "order-status" ++
            [{ Topic := "order-status"
               Key := order.ID
               Value := js.MarshalConfirmed
                 { EventID := env.uuid w1.uuids
                   OrderID := order.ID
                   ConfirmedAt := env.now w1.clock } }] := by
  have hsum := domain.totalLoop_eq_sumInListOrder env.fp items
  have hbuild := service.buildOrder_eq env w userID restaurantID items
  rw [hsum] at hbuild
  generalize hord : ({ ID := env.uuid (w.uuids + items.countP fun it => decide (it.ID = ""))
                       UserID := userID
                       RestaurantID := restaurantID
                       Items := (service.assignItemIDs env items w).1
                       TotalAmount := domain.sumInListOrder env.fp items items.length
                       Status := "PENDING"
                       CreatedAt := env.now w.clock
                       UpdatedAt := env.now w.clock
                       Version := 1 } : domain.Order) = order at hbuild
  generalize hwb : ({ w with
                      uuids := w.uuids + (items.countP fun it => decide (it.ID = "")) + 1
                      clock := w.clock + 1 } : World) = wb at hbuild
  have hrepo := repository.CreateOrder_ok s.repo env hstore wb order
  obtain ⟨hres, hdb, hwrite, _⟩ := service.CreateOrder_persisted s env js w wb _ userID
    restaurantID items order hu hr hi hbuild hrepo
  have hfin : (domain.sumInListOrder env.fp items items.length).isFinite = true :=
    F64.isFinite_of_between 100 50000 _ (by decide) (by decide) hlo hhi
  have hprices : ∀ item ∈ (service.assignItemIDs env items w).1, item.Price.isFinite = true := by
    have h1 : (domain.totalLoop env.fp (service.assignItemIDs env items w).1).isFinite
        = true := by
      rw [service.totalLoop_assignItemIDs, hsum]
      exact hfin
    exact (domain.isFinite_of_foldl env.fp _ 0 h1).2
  have hOI : order.Items = (service.assignItemIDs env items w).1 := by rw [← hord]
  have hOT : order.TotalAmount = domain.sumInListOrder env.fp items items.length := by
    rw [← hord]
  have hOU : order.UserID = userID := by rw [← hord]
  have hOR : order.RestaurantID = restaurantID := by rw [← hord]
  have hOS : order.Status = "PENDING" := by rw [← hord]
  have hOV : order.Version = 1 := by rw [← hord]
  have hev : domain.NewOrderCreatedEvent (env.uuid wb.uuids) order
      = { EventID := env.uuid wb.uuids
          OrderID := order.ID
          UserID := userID
          RestaurantID := restaurantID
          Items := order.Items
          TotalAmount := domain.sumInListOrder env.fp items items.length
          CreatedAt := order.CreatedAt } := by
    simp [domain.NewOrderCreatedEvent, hOT, hOU, hOR]
  obtain ⟨payload, hpay⟩ := hjson (domain.NewOrderCreatedEvent (env.uuid wb.uuids) order)
    (by rw [hev]; exact hfin) (by rw [hev, hOI]; exact hprices)
  have hwr := hwrite payload hpay
  rw [hbus, hev] at hwr
  rw [hev] at hpay
  have hwbd : wb.db = w.db := by rw [← hwb]
  have horders : (s.CreateOrder env js w userID restaurantID items).1.db.orders = w.db.orders ++
      [{ id := order.ID
         user_id := userID
         restaurant_id := restaurantID
         total_amount := domain.sumInListOrder env.fp items items.length
         status := "PENDING"
         created_at := order.CreatedAt
         updated_at := order.UpdatedAt
         version := 1 }] := by
    rw [hdb]
    simp [repository.orderRow, hwbd, hOT, hOU, hOR, hOS, hOV]
  refine ⟨order, (s.CreateOrder env js w userID restaurantID items).1, env.uuid wb.uuids,
    payload, Prod.ext rfl hres, hOT, hOS, hOV, hOU, hOR, ?_, horders, ?_, hpay, hwr, ?_, ?_⟩
  · rw [hOI]
    exact service.assignItemIDs_fields env items w
  · rw [hdb]
    simp [hwbd]
    intro a _
    rfl
  · simp [World.topic, hwr]
  · intro msg hdecode
    have hnlo : ¬ domain.sumInListOrder env.fp items items.length < 100 :=
      F64.not_lt_of_le' hlo
    have hnhi : ¬ domain.sumInListOrder env.fp items items.length > 50000 :=
      F64.not_lt_of_le' hhi
    obtain ⟨h1, _, _, h4, _⟩ := kafka.handleOrderCreated_success c env js
      (s.CreateOrder env js w userID restaurantID items).1 msg _ hdecode (hstore _)
    simp only [hnlo, hnhi, if_false] at h1
    obtain ⟨h5, h6⟩ := h4 hnlo hnhi
    rw [hbus] at h5
    refine ⟨h1, ?_, h5, h6 (hbus _)⟩
    rw [h1, horders, List.map_append]
    apply List.mem_append_right
    simp

/-- Witness of amended C9: user "u1", restaurant "r1", items with prices 50
and 60, one of each; the total is 110, the published event decodes from the
sample payload, and after the consumer has handled it the stored row is
CONFIRMED with version 2 and an OrderConfirmed event has been published. -/
theorem C9_end_to_end_confirmed_witness :
    (("u1" : String) ≠ "" ∧ ("r1" : String) ≠ "" ∧ Sample.items ≠ [] ∧
      100 ≤ domain.sumInListOrder Sample.env.fp Sample.items Sample.items.length ∧
      domain.sumInListOrder Sample.env.fp Sample.items Sample.items.length ≤ 50000 ∧
      (∀ k, Sample.env.dbErr k = none) ∧ (∀ k, Sample.env.busErr k = none) ∧
      (∀ e : domain.OrderCreatedEvent, e.TotalAmount.isFinite = true →
        (∀ item ∈ e.Items, item.Price.isFinite = true) →
        ∃ payload, Sample.json.MarshalCreated e = .ok payload)) ∧
    (∃ (order : domain.Order) (w1 : World),
      Sample.orderService.CreateOrder Sample.env Sample.json Sample.world "u1" "r1" Sample.items
        = (w1, .ok order) ∧
      order.TotalAmount = 110 ∧ order.Status = "PENDING" ∧ order.Version = 1) ∧
    (Sample.orderService.CreateOrder Sample.env Sample.json Sample.world "u1" "r1"
        Sample.items).1.db.orders
      = [{ id := "uuid-2", user_id := "u1", restaurant_id := "r1", total_amount := 110,
           status := "PENDING", created_at := 1000, updated_at := 1000, version := 1 }] ∧
    (Sample.orderService.CreateOrder Sample.env Sample.json Sample.world "u1" "r1"
        Sample.items).1.writes.map (fun bw => (bw.msg, bw.event, bw.err))
      = [(Sample.publishedMessage, .created Sample.publishedEvent, none)] ∧
    Sample.json.UnmarshalCreated Sample.publishedMessage.Value = .ok Sample.publishedEvent ∧
    (Sample.consumer.handleOrderCreated Sample.env Sample.json
        (Sample.orderService.CreateOrder Sample.env Sample.json Sample.world "u1" "r1"
          Sample.items).1 Sample.publishedMessage).db.orders
      = [{ id := "uuid-2", user_id := "u1", restaurant_id := "r1", total_amount := 110,
           status := "CONFIRMED", created_at := 1000, updated_at := 2005, version := 2 }] ∧
    (Sample.consumer.handleOrderCreated Sample.env Sample.json
        (Sample.orderService.CreateOrder Sample.env Sample.json Sample.world "u1" "r1"
          Sample.items).1 Sample.publishedMessage).writes.map (fun bw => bw.event)
      = [ .created Sample.publishedEvent,
          .confirmed { EventID := "uuid-4", OrderID := "uuid-2", ConfirmedAt := 1001 } ] :=
  have hlo : 100 ≤ domain.sumInListOrder Sample.env.fp Sample.items Sample.items.length := by
    rw [Sample.sum_items]
    decide
  have hhi : domain.sumInListOrder Sample.env.fp Sample.items Sample.items.length ≤ 50000 := by
    rw [Sample.sum_items]
    decide
  have hmain := C9_end_to_end_confirmed Sample.orderService Sample.consumer Sample.env
    Sample.json Sample.world "u1" "r1" Sample.items (by decide) (by decide) (by decide) hlo hhi
    (fun _ => rfl) (fun _ => rfl) Sample.marshal_finite
  ⟨⟨by decide, by decide, by decide, hlo, hhi, fun _ => rfl, fun _ => rfl, Sample.marshal_finite⟩,
    by
      obtain ⟨order, w1, _, _, hc, htotal, hst, hver, _⟩ := hmain
      exact ⟨order, w1, hc, htotal.trans Sample.sum_items, hst, hver⟩,
    by decide, by decide, rfl, by decide, by decide⟩

/-- C10: for every valid input, if persisting the order fails then
`OrderService.CreateOrder` returns no order, returns exactly the error the
repository returned, and publishes no OrderCreated event: no call is made to
the bus.  The store is left as it was. -/
theorem C10_persistence_failure (s : service.OrderService) (env : Env) (js : JSON)
    (w w1 : World) (userID restaurantID : String) (items : List domain.OrderItem)
    (order : domain.Order) (err : GoError)
    (hu : userID ≠ "") (hr : restaurantID ≠ "") (hi : items ≠ [])
    (hbuild : service.buildOrder env w userID restaurantID items = (.ok order, w1))
    (hfail : (s.repo.CreateOrder env w1 order).2 = some err) :
    (s.CreateOrder env js w userID restaurantID items).2 = .error err ∧
    (s.CreateOrder env js w userID restaurantID items).1.writes = w.writes ∧
    (s.CreateOrder env js w userID restaurantID items).1.db = w.db := by
  have hlen : ¬ items.length = 0 := by
    intro h
    exact hi (List.length_eq_zero.mp h)
  have hwa := service.assignItemIDs_world env items w
  rcases ha : service.assignItemIDs env items w with ⟨items1, wa⟩
  rw [ha] at hwa
  simp only at hwa
  simp only [service.buildOrder, ha, timeNow, uuidNew, Prod.mk.injEq] at hbuild
  obtain ⟨horder, hw1⟩ := hbuild
  have hrw := repository.CreateOrder_world s.repo env w1 order
  rcases hrepo : s.repo.CreateOrder env w1 order with ⟨w2, res⟩
  rw [hrepo] at hfail hrw
  simp only at hfail hrw
  subst hfail
  have hdb := hrw.2.2.2.2 err rfl
  unfold service.OrderService.CreateOrder
  simp only [hu, hr, hlen, or_self, if_false, ha, timeNow, uuidNew, horder, hw1, hrepo]
  subst hw1
  simp [logger.Logger.Error, logger.Logger.log, hrw.1, hdb, hwa.1, hwa.2.2.1]

/-- Witness of C10: the sample order with a store that refuses the first call. -/
theorem C10_persistence_failure_witness :
    (("u1" : String) ≠ "" ∧ ("r1" : String) ≠ "" ∧ Sample.items ≠ [] ∧
      service.buildOrder Sample.envStoreDown Sample.world "u1" "r1" Sample.items
        = (.ok Sample.builtOrder, Sample.worldBuilt) ∧
      (Sample.orderService.repo.CreateOrder Sample.envStoreDown Sample.worldBuilt
          Sample.builtOrder).2
        = some (.wrapError "start tx" (.errorString "connection refused"))) ∧
    (Sample.orderService.CreateOrder Sample.envStoreDown Sample.json Sample.world "u1" "r1"
        Sample.items).2
      = .error (.wrapError "start tx" (.errorString "connection refused")) ∧
    (Sample.orderService.CreateOrder Sample.envStoreDown Sample.json Sample.world "u1" "r1"
        Sample.items).1.writes = Sample.world.writes ∧
    (Sample.orderService.CreateOrder Sample.envStoreDown Sample.json Sample.world "u1" "r1"
        Sample.items).1.db = Sample.world.db :=
  ⟨⟨by decide, by decide, by decide, Sample.buildOrder_storeDown, rfl⟩,
    C10_persistence_failure Sample.orderService Sample.envStoreDown Sample.json Sample.world
      Sample.worldBuilt "u1" "r1" Sample.items Sample.builtOrder
      (.wrapError "start tx" (.errorString "connection refused"))
      (by decide) (by decide) (by decide) Sample.buildOrder_storeDown rfl⟩

/-- C11: for every valid input for which persistence succeeds,
`OrderService.CreateOrder` attempts to publish an OrderCreated event of the
order and returns the persisted order with no error, whatever becomes of the
attempt, and the row of the order is in the store.  When `json.Marshal`
encodes the event, exactly one write is made to the bus, on topic "orders",
keyed by the order id, and its outcome, whatever the bus answers, does not
reach the caller; when `json.Marshal` refuses the event (a total that is not a
finite number), nothing is written to the bus and the failure is logged. -/
theorem C11_publish_failure_swallowed (s : service.OrderService) (env : Env) (js : JSON)
    (w w1 : World) (userID restaurantID : String) (items : List domain.OrderItem)
    (order : domain.Order)
    (hu : userID ≠ "") (hr : restaurantID ≠ "") (hi : items ≠ [])
    (hbuild : service.buildOrder env w userID restaurantID items = (.ok order, w1))
    (hpersist : (s.repo.CreateOrder env w1 order).2 = none)
    (busErr : Nat → Option GoError) :
    (s.CreateOrder { env with busErr := busErr } js w userID restaurantID items).2
      = .ok order ∧
    ({ id := order.ID
       user_id := order.UserID
       restaurant_id := order.RestaurantID
       total_amount := order.TotalAmount
       status := order.Status
       created_at := order.CreatedAt
       updated_at := order.UpdatedAt
       version := order.Version } : repository.OrderRow)
      ∈ (s.CreateOrder { env with busErr := busErr } js w userID restaurantID items).1.db.orders ∧
    (∀ payload,
      js.MarshalCreated
          { EventID := env.uuid w1.uuids
            OrderID := order.ID
            UserID := order.UserID
            RestaurantID := order.RestaurantID
            Items := order.Items
            TotalAmount := order.TotalAmount
            CreatedAt := order.CreatedAt } = .ok payload →
      (s.CreateOrder { env with busErr := busErr } js w userID restaurantID items).1.writes
        = w.writes ++
          [{ addr := s.producer.brokers
             msg := { Topic := "orders", Key := order.ID, Value := payload }
             event := .created
               { EventID := env.uuid w1.uuids
                 OrderID := order.ID
                 UserID := order.UserID
                 RestaurantID := order.RestaurantID
                 Items := order.Items
                 TotalAmount := order.TotalAmount
                 CreatedAt := order.CreatedAt }
             err := busErr w.writes.length }]) ∧
    (∀ err,
      js.MarshalCreated
          { EventID := env.uuid w1.uuids
            OrderID := order.ID
            UserID := order.UserID
            RestaurantID := order.RestaurantID
            Items := order.Items
            TotalAmount := order.TotalAmount
            CreatedAt := order.CreatedAt } = .error err →
      (s.CreateOrder { env with busErr := busErr } js w userID restaurantID items).1.writes
        = w.writes ∧
      (s.CreateOrder { env with busErr := busErr } js w userID restaurantID items).1.logs
        = w.logs ++ [{ Level := "ERROR", Message := "Failed to marshal OrderCreatedEvent" },
                     { Level := "ERROR",
                       Message := "Failed to publish order creation event" }]) := by
  have hb : service.buildOrder { env with busErr := busErr } w userID restaurantID items
      = (.ok order, w1) := by
    rw [service.buildOrder_busErr]
    exact hbuild
  have hp : s.repo.CreateOrder { env with busErr := busErr } w1 order
      = ((s.repo.CreateOrder env w1 order).1, none) := by
    rw [repository.CreateOrder_busErr, ← hpersist]
  obtain ⟨hres, hdb, hwrite, hrefuse⟩ :=
    service.CreateOrder_persisted s { env with busErr := busErr } js w w1 _ userID restaurantID
      items order hu hr hi hb hp
  refine ⟨hres, ?_, hwrite, hrefuse⟩
  rw [hdb, repository.CreateOrder_stored s.repo env w1 order hpersist]
  simp [repository.orderRow]

/-- Witness of C11: the sample order, stored, with a bus that refuses the
write: the order is returned and the refused write is the only one; and an
order of one item of price 1e308, ten times, whose total is `+Inf`: the order
is stored and returned, the event is not encoded and nothing is written to the
bus. -/
theorem C11_publish_failure_swallowed_witness :
    (("u1" : String) ≠ "" ∧ ("r1" : String) ≠ "" ∧ Sample.items ≠ [] ∧
      service.buildOrder Sample.env Sample.world "u1" "r1" Sample.items
        = (.ok Sample.builtOrder, Sample.worldBuilt) ∧
      (Sample.orderService.repo.CreateOrder Sample.env Sample.worldBuilt
        Sample.builtOrder).2 = none) ∧
    (Sample.orderService.CreateOrder
        { Sample.env with busErr := fun _ => some (.errorString "bus unavailable") }
        Sample.json Sample.world "u1" "r1" Sample.items).2 = .ok Sample.builtOrder ∧
    (Sample.orderService.CreateOrder
        { Sample.env with busErr := fun _ => some (.errorString "bus unavailable") }
        Sample.json Sample.world "u1" "r1" Sample.items).1.writes
      = [{ addr := "localhost:9092"
           msg := Sample.publishedMessage
           event := .created Sample.publishedEvent
           err := some (.errorString "bus unavailable") }] ∧
    (Sample.orderService.CreateOrder
        { Sample.env with busErr := fun _ => none }
        Sample.json Sample.world "u1" "r1" Sample.items).2 = .ok Sample.builtOrder ∧
    (Sample.hugeItems ≠ [] ∧
      service.buildOrder Sample.env Sample.world "u1" "r1" Sample.hugeItems
        = (.ok Sample.hugeOrder, Sample.worldHuge) ∧
      (Sample.orderService.repo.CreateOrder Sample.env Sample.worldHuge
        Sample.hugeOrder).2 = none ∧
      Sample.hugeOrder.TotalAmount = F64.inf false) ∧
    (Sample.orderService.CreateOrder
        { Sample.env with busErr := fun _ => none }
        Sample.json Sample.world "u1" "r1" Sample.hugeItems).2 = .ok Sample.hugeOrder ∧
    (Sample.orderService.CreateOrder
        { Sample.env with busErr := fun _ => none }
        Sample.json Sample.world "u1" "r1" Sample.hugeItems).1.writes = [] :=
  have hdown := C11_publish_failure_swallowed Sample.orderService Sample.env Sample.json
    Sample.world Sample.worldBuilt "u1" "r1" Sample.items Sample.builtOrder (by decide)
    (by decide) (by decide) Sample.buildOrder_env rfl
    (fun _ => some (.errorString "bus unavailable"))
  have hup := C11_publish_failure_swallowed Sample.orderService Sample.env Sample.json
    Sample.world Sample.worldBuilt "u1" "r1" Sample.items Sample.builtOrder (by decide)
    (by decide) (by decide) Sample.buildOrder_env rfl (fun _ => none)
  have hhuge := C11_publish_failure_swallowed Sample.orderService Sample.env Sample.json
    Sample.world Sample.worldHuge "u1" "r1" Sample.hugeItems Sample.hugeOrder (by decide)
    (by decide) (by decide) Sample.buildOrder_huge rfl (fun _ => none)
  ⟨⟨by decide, by decide, by decide, Sample.buildOrder_env, rfl⟩,
    hdown.1, (hdown.2.2.1 "created:uuid-3:uuid-2" rfl).trans (by decide), hup.1,
    ⟨by decide, Sample.buildOrder_huge, rfl, rfl⟩, hhuge.1,
    (hhuge.2.2.2 (.errorString "json: unsupported value") rfl).1⟩

/-- C12: for every call of `OrderService.CreateOrder` that passes input
validation there is the order the call constructs: it has as many items as
were given, in the same order, each with its `ItemID`, `Name`, `Price` and
`Quantity` unchanged; an item that had an `ID` keeps it, an item whose `ID`
was empty receives the answer of its own `uuid.New()` call (the calls are made
in list order, one per item without identifier); so, identifiers from
`uuid.New()` being non-empty, every item of the order has a non-empty
identifier.  This order is handed to the repository: the call returns the
repository's error for it, or the order itself when there is none; and when
the store accepts every call, the order is returned and its items are the item
rows added to the store. -/
theorem C12_item_identifiers (s : service.OrderService) (env : Env) (js : JSON)
    (w : World) (userID restaurantID : String) (items : List domain.OrderItem)
    (hu : userID ≠ "") (hr : restaurantID ≠ "") (hi : items ≠ [])
    (huuid : ∀ n, env.uuid n ≠ "") :
    ∃ order : domain.Order,
      order.Items.length = items.length ∧
      (∀ i item, items[i]? = some item →
        ∃ item', order.Items[i]? = some item' ∧
          (item.ID ≠ "" → item'.ID = item.ID) ∧
          (item.ID = "" →
            item'.ID
              = env.uuid (w.uuids + (items.take i).countP fun it => decide (it.ID = ""))) ∧
          item'.ItemID = item.ItemID ∧ item'.Name = item.Name ∧ item'.Price = item.Price ∧
          item'.Quantity = item.Quantity) ∧
      (∀ item' ∈ order.Items, item'.ID ≠ "") ∧
      (s.CreateOrder env js w userID restaurantID items).2
        = (match (s.repo.CreateOrder env
              { w with
                uuids := w.uuids + (items.countP fun it => decide (it.ID = "")) + 1
                clock := w.clock + 1 } order).2 with
           | none => .ok order
           | some err => .error err) ∧
      ((∀ k, env.dbErr k = none) →
        (s.CreateOrder env js w userID restaurantID items).2 = .ok order ∧
        (s.CreateOrder env js w userID restaurantID items).1.db.order_items
          = w.db.order_items ++
            order.Items.map (fun item =>
              { id := item.ID
                order_id := order.ID
                item_id := item.ItemID
                name := item.Name
                price := item.Price
                quantity := item.Quantity
                created_at := order.CreatedAt })) := by
  have hbuild := service.buildOrder_eq env w userID restaurantID items
  generalize hord : ({ ID := env.uuid (w.uuids + items.countP fun it => decide (it.ID = ""))
                       UserID := userID
                       RestaurantID := restaurantID
                       Items := (service.assignItemIDs env items w).1
                       TotalAmount := domain.totalLoop env.fp items
                       Status := "PENDING"
                       CreatedAt := env.now w.clock
                       UpdatedAt := env.now w.clock
                       Version := 1 } : domain.Order) = order at hbuild
  have hitems : order.Items = (service.assignItemIDs env items w).1 := by rw [← hord]
  have hget := service.assignItemIDs_getElem? env items w
  refine ⟨order, ?_, ?_, ?_, ?_, ?_⟩
  · rw [hitems, service.assignItemIDs_length]
  · intro i item hitem
    rw [hitems, hget i, hitem]
    simp only [Option.map_some']
    refine ⟨_, rfl, ?_⟩
    by_cases h : item.ID = ""
    · simp [h]
    · simp [h]
  · intro item' hmem
    rw [hitems] at hmem
    obtain ⟨i, hi'⟩ := List.mem_iff_getElem?.mp hmem
    rw [hget i] at hi'
    cases hsrc : items[i]? with
    | none => simp [hsrc] at hi'
    | some item =>
      simp only [hsrc, Option.map_some', Option.some.injEq] at hi'
      by_cases h : item.ID = ""
      · simp only [h, if_true] at hi'
        rw [← hi']
        exact huuid _
      · simp only [h, if_false] at hi'
        rw [← hi']
        exact h
  · exact service.CreateOrder_result s env js w userID restaurantID items hu hr hi order _ hbuild
  · intro hstore
    have hrepo := repository.CreateOrder_ok s.repo env hstore
      { w with
        uuids := w.uuids + (items.countP fun it => decide (it.ID = "")) + 1
        clock := w.clock + 1 } order
    obtain ⟨hres, hdb, _, _⟩ := service.CreateOrder_persisted s env js w _ _ userID
      restaurantID items order hu hr hi hbuild hrepo
    refine ⟨hres, ?_⟩
    rw [hdb]
    simp
    intro a _
    rfl

/-- Witness of C12: the two sample items, both without identifier, with a
store that accepts every call: the order returned carries the identifiers
"uuid-0" and "uuid-1", and the item rows stored carry them too. -/
theorem C12_item_identifiers_witness :
    (("u1" : String) ≠ "" ∧ ("r1" : String) ≠ "" ∧ Sample.items ≠ [] ∧
      (∀ n, Sample.env.uuid n ≠ "") ∧ (∀ k, Sample.env.dbErr k = none)) ∧
    (∃ order : domain.Order,
      order.Items.length = Sample.items.length ∧
      (∀ item' ∈ order.Items, item'.ID ≠ "") ∧
      (Sample.orderService.CreateOrder Sample.env Sample.json Sample.world "u1" "r1"
        Sample.items).2 = .ok order) ∧
    (Sample.orderService.CreateOrder Sample.env Sample.json Sample.world "u1" "r1"
        Sample.items).2 = .ok Sample.builtOrder ∧
    Sample.builtOrder.Items.map (fun it => it.ID) = ["uuid-0", "uuid-1"] ∧
    (Sample.orderService.CreateOrder Sample.env Sample.json Sample.world "u1" "r1"
        Sample.items).1.db.order_items.map (fun row => (row.id, row.order_id, row.item_id))
      = [("uuid-0", "uuid-2", "burger"), ("uuid-1", "uuid-2", "pizza")] :=
  ⟨⟨by decide, by decide, by decide, Sample.uuid_nonempty, fun _ => rfl⟩,
    (C12_item_identifiers Sample.orderService Sample.env Sample.json Sample.world "u1" "r1"
      Sample.items (by decide) (by decide) (by decide) Sample.uuid_nonempty).elim
      fun order h => ⟨order, h.1, h.2.2.1, (h.2.2.2.2 (fun _ => rfl)).1⟩,
    rfl, rfl, by decide⟩

/-- C13: for every message the loop hands to the handler: when the payload
does not decode to an OrderCreated event the handler makes no database call,
leaves the store as it was and hands nothing to the bus; when the status
update fails the handler hands nothing to the bus (and the store is as it
was); the handler has no result and returns on both paths, and the loop goes
on with its next pass from the world the handler left. -/
theorem C13_handler_failures_do_not_stop_loop (c : kafka.Consumer) (env : Env) (js : JSON)
    (feed : kafka.Feed) (fuel pass : Nat) (w : World) (rs : kafka.ReaderState)
    (msg : kafka.Message)
    (hlive : feed.done pass = false) (hread : feed.fetch pass = .ok msg) :
    (∀ err, js.UnmarshalCreated msg.Value = .error err →
      (c.handleOrderCreated env js w msg).db = w.db ∧
      (c.handleOrderCreated env js w msg).dbCalls = w.dbCalls ∧
      (c.handleOrderCreated env js w msg).writes = w.writes) ∧
    (∀ event err, js.UnmarshalCreated msg.Value = .ok event →
      env.dbErr w.dbCalls = some err →
      (c.handleOrderCreated env js w msg).writes = w.writes ∧
      (c.handleOrderCreated env js w msg).db = w.db) ∧
    c.loop env js feed (fuel + 1) pass w rs
      = c.loop env js feed fuel (pass + 1) (c.handleOrderCreated env js w msg)
          (c.ReadMessage feed pass rs).1 := by
  refine ⟨?_, ?_, kafka.loop_step c env js feed fuel pass w rs msg hlive hread⟩
  · intro err h
    exact kafka.handleOrderCreated_decode_error c env js w msg err h
  · intro event err hdecode hfail
    have h := kafka.handleOrderCreated_store_error c env js w msg event err hdecode hfail
    exact ⟨h.2.2, h.1⟩

/-- Witness of C13: a payload that does not decode, and a message handled
while the store refuses the status update; in both cases nothing is published
and the loop runs its next pass. -/
theorem C13_handler_failures_do_not_stop_loop_witness :
    (Sample.feed.done 0 = false ∧ Sample.feed.fetch 0 = .ok Sample.lowMessage) ∧
    Sample.json.UnmarshalCreated Sample.brokenMessage.Value
      = .error (.errorString "invalid character") ∧
    (Sample.consumer.handleOrderCreated Sample.env Sample.json Sample.world
      Sample.brokenMessage).writes = [] ∧
    (Sample.consumer.handleOrderCreated Sample.envStoreDown Sample.json Sample.world
      Sample.lowMessage).writes = Sample.world.writes ∧
    Sample.consumer.loop Sample.envStoreDown Sample.json Sample.feed 2 0 Sample.world
        Sample.reader
      = Sample.consumer.loop Sample.envStoreDown Sample.json Sample.feed 1 1
          (Sample.consumer.handleOrderCreated Sample.envStoreDown Sample.json Sample.world
            Sample.lowMessage)
          (Sample.consumer.ReadMessage Sample.feed 0 Sample.reader).1 :=
  have h := C13_handler_failures_do_not_stop_loop Sample.consumer Sample.envStoreDown
    Sample.json Sample.feed 1 0 Sample.world Sample.reader Sample.lowMessage rfl rfl
  ⟨⟨rfl, rfl⟩, rfl, rfl,
    (h.2.1 Sample.lowEvent (.errorString "connection refused") rfl rfl).1, h.2.2⟩

/-- C15, as the claim states it, fails: the processor's consumer reads the
creation message of order "o-low" while the store refuses the status update;
the handler gives up on the message (the store is unchanged, nothing is
published), yet the offset of the message has been handed over for commit. -/
theorem C15_offset_commit_counterexample :
    Sample.json.UnmarshalCreated Sample.lowMessage.Value = .ok Sample.lowEvent ∧
    (Sample.consumer.repo.UpdateOrderStatus Sample.envStoreDown Sample.world "o-low"
        domain.OrderStatusFailed).2 = some (.errorString "connection refused") ∧
    (Sample.consumer.Start Sample.envStoreDown Sample.json Sample.feed 1 Sample.world
        Sample.reader).1.db = Sample.world.db ∧
    (Sample.consumer.Start Sample.envStoreDown Sample.json Sample.feed 1 Sample.world
        Sample.reader).1.writes = [] ∧
    (Sample.consumer.Start Sample.envStoreDown Sample.json Sample.feed 1 Sample.world
        Sample.reader).2.1.commits = [Sample.lowMessage] := by
  refine ⟨rfl, rfl, rfl, rfl, rfl⟩

/-- C15, amended: a consumer that belongs to a consumer group hands the read
offset of a creation message over for commit when `ReadMessage` returns the
message, before the handler runs.  If the handler then fails partway because
the status write fails (the store is left as it was and nothing is
published), the message is marked done all the same: it is among the offsets
handed over for commit after this pass and after every later pass of the
loop, and the reader's commit state is the one it would be had the status
write succeeded (it does not depend on the store, the bus or the world). -/
theorem C15_offset_committed_on_read (c : kafka.Consumer) (env : Env) (js : JSON)
    (feed : kafka.Feed) (fuel pass : Nat) (w : World) (rs : kafka.ReaderState)
    (msg : kafka.Message) (event : domain.OrderCreatedEvent) (err : GoError)
    (hgroup : c.reader.GroupID ≠ "")
    (hlive : feed.done pass = false) (hread : feed.fetch pass = .ok msg)
    (hdecode : js.UnmarshalCreated msg.Value = .ok event)
    (hfail : env.dbErr w.dbCalls = some err) :
    c.ReadMessage feed pass rs = ({ commits := rs.commits ++ [msg] }, .ok msg) ∧
    c.loop env js feed (fuel + 1) pass w rs
      = c.loop env js feed fuel (pass + 1) (c.handleOrderCreated env js w msg)
          { commits := rs.commits ++ [msg] } ∧
    (c.handleOrderCreated env js w msg).db = w.db ∧
    (c.handleOrderCreated env js w msg).writes = w.writes ∧
    msg ∈ (c.loop env js feed (fuel + 1) pass w rs).2.1.commits ∧
    (∀ (env' : Env) (js' : JSON) (w' : World),
      (c.loop env' js' feed (fuel + 1) pass w' rs).2.1
        = (c.loop env js feed (fuel + 1) pass w rs).2.1) := by
  have hrm : c.ReadMessage feed pass rs = ({ commits := rs.commits ++ [msg] }, .ok msg) := by
    simp [kafka.Consumer.ReadMessage, hread, hgroup]
  have hstep := kafka.loop_step c env js feed fuel pass w rs msg hlive hread
  rw [hrm] at hstep
  have hfailed := kafka.handleOrderCreated_store_error c env js w msg event err hdecode hfail
  refine ⟨hrm, hstep, hfailed.1, hfailed.2.2, ?_, ?_⟩
  · rw [hstep]
    apply kafka.loop_commits_grow
    simp
  · intro env' js' w'
    exact kafka.loop_reader_independent c env env' js js' feed (fuel + 1) pass w w' rs

/-- Witness of amended C15: the processor's consumer (group
"order-processor-group") reads the creation message of order "o-low" once,
with a store that refuses the status update; after three passes the message
is the one offset handed over for commit, as it is when the store accepts the
update. -/
theorem C15_offset_committed_on_read_witness :
    (Sample.consumer.reader.GroupID ≠ "" ∧ Sample.feedOnce.done 0 = false ∧
      Sample.feedOnce.fetch 0 = .ok Sample.lowMessage ∧
      Sample.json.UnmarshalCreated Sample.lowMessage.Value = .ok Sample.lowEvent ∧
      Sample.envStoreDown.dbErr Sample.world.dbCalls
        = some (.errorString "connection refused")) ∧
    Sample.consumer.ReadMessage Sample.feedOnce 0 Sample.reader
      = ({ commits := Sample.reader.commits ++ [Sample.lowMessage] }, .ok Sample.lowMessage) ∧
    Sample.lowMessage
      ∈ (Sample.consumer.loop Sample.envStoreDown Sample.json Sample.feedOnce 3 0 Sample.world
          Sample.reader).2.1.commits ∧
    (Sample.consumer.loop Sample.env Sample.json Sample.feedOnce 3 0 Sample.world
        Sample.reader).2.1
      = (Sample.consumer.loop Sample.envStoreDown Sample.json Sample.feedOnce 3 0 Sample.world
          Sample.reader).2.1 ∧
    (Sample.consumer.loop Sample.envStoreDown Sample.json Sample.feedOnce 3 0 Sample.world
        Sample.reader).2.1.commits = [Sample.lowMessage] ∧
    (Sample.consumer.loop Sample.envStoreDown Sample.json Sample.feedOnce 3 0 Sample.world
        Sample.reader).1.db = Sample.world.db :=
  have h := C15_offset_committed_on_read Sample.consumer Sample.envStoreDown Sample.json
    Sample.feedOnce 2 0 Sample.world Sample.reader Sample.lowMessage Sample.lowEvent
    (.errorString "connection refused") (by decide) rfl rfl rfl rfl
  ⟨⟨by decide, rfl, rfl, rfl, rfl⟩, h.1, h.2.2.2.2.1,
    h.2.2.2.2.2 Sample.env Sample.json Sample.world, by decide, by decide⟩

/-- C16, as the claim states it, fails: with a store and a bus that accept
every call, `CreateOrder` returns an order for an item with price -5 and
quantity 0, and the order carries that item. -/
theorem C16_item_constraints_counterexample :
    ∃ order : domain.Order,
      (Sample.orderService.CreateOrder Sample.env Sample.json Sample.world "u1" "r1"
        Sample.badItems).2 = .ok order ∧
      ∃ item ∈ order.Items, item.Price < 0 ∧ item.Quantity ≤ 0 := by
  refine ⟨{ ID := "uuid-1", UserID := "u1", RestaurantID := "r1",
            Items := [{ ID := "uuid-0", ItemID := "tea", Name := "Tea", Price := -5,
                        Quantity := 0 }],
            TotalAmount := 0, Status := "PENDING", CreatedAt := 1000, UpdatedAt := 1000,
            Version := 1 }, ?_,
    ({ ID := "uuid-0", ItemID := "tea", Name := "Tea", Price := -5, Quantity := 0 } :
      domain.OrderItem), ?_, ?_, ?_⟩
  · have hb : service.buildOrder Sample.env Sample.world "u1" "r1" Sample.badItems
        = (.ok { ID := "uuid-1", UserID := "u1", RestaurantID := "r1",
                 Items := [{ ID := "uuid-0", ItemID := "tea", Name := "Tea", Price := -5,
                             Quantity := 0 }],
                 TotalAmount := 0, Status := "PENDING", CreatedAt := 1000, UpdatedAt := 1000,
                 Version := 1 }, { Sample.world with uuids := 2, clock := 1 }) := by
      rw [service.buildOrder_eq]
      exact Prod.ext (congrArg Except.ok (by decide)) rfl
    rw [service.CreateOrder_result Sample.orderService Sample.env Sample.json Sample.world
      "u1" "r1" Sample.badItems (by decide) (by decide) (by decide) _ _ hb]
    rfl
  · simp
  · decide
  · decide

/-- C16, amended: `CreateOrder` checks neither prices nor quantities.  An
order it returns carries the price and the quantity of every item exactly as
given, in the same order; so its items all have a non-negative price and a
positive quantity if and only if the items of the call do. -/
theorem C16_items_as_given (s : service.OrderService) (env : Env) (js : JSON) (w : World)
    (userID restaurantID : String) (items : List domain.OrderItem) (order : domain.Order)
    (h : (s.CreateOrder env js w userID restaurantID items).2 = .ok order) :
    order.Items.map (fun it => (it.Price, it.Quantity))
      = items.map (fun it => (it.Price, it.Quantity)) ∧
    ((∀ item ∈ order.Items, 0 ≤ item.Price ∧ 0 < item.Quantity) ↔
      (∀ item ∈ items, 0 ≤ item.Price ∧ 0 < item.Quantity)) := by
  have hb := (service.CreateOrder_returns_built s env js w userID restaurantID items order h).1
  have hitems := (service.buildOrder_items env w _ userID restaurantID items order
    (Prod.ext hb rfl)).1
  have hmap : order.Items.map (fun it => (it.Price, it.Quantity))
      = items.map (fun it => (it.Price, it.Quantity)) := by
    rw [hitems]
    exact service.assignItemIDs_prices env items w
  refine ⟨hmap, ?_⟩
  have key : ∀ l : List domain.OrderItem,
      (∀ item ∈ l, 0 ≤ item.Price ∧ 0 < item.Quantity) ↔
        (∀ p ∈ l.map (fun it => (it.Price, it.Quantity)), (0 : F64) ≤ p.1 ∧ (0 : Int) < p.2) := by
    intro l
    simp [List.forall_mem_map]
  rw [key order.Items, key items, hmap]

/-- Witness of amended C16: the sample order, created with store and bus up. -/
theorem C16_items_as_given_witness :
    (∃ order : domain.Order,
      (Sample.orderService.CreateOrder Sample.env Sample.json Sample.world "u1" "r1"
        Sample.items).2 = .ok order ∧
      order.Items.map (fun it => (it.Price, it.Quantity))
        = Sample.items.map (fun it => (it.Price, it.Quantity))) := by
  have hres : (Sample.orderService.CreateOrder Sample.env Sample.json Sample.world "u1" "r1"
      Sample.items).2 = .ok Sample.builtOrder := by
    rw [service.CreateOrder_result Sample.orderService Sample.env Sample.json Sample.world
      "u1" "r1" Sample.items (by decide) (by decide) (by decide) _ _ Sample.buildOrder_env]
    rfl
  exact ⟨Sample.builtOrder, hres,
    (C16_items_as_given Sample.orderService Sample.env Sample.json Sample.world "u1" "r1"
      Sample.items Sample.builtOrder hres).1⟩

/-- C17: for every decoded create-order request, the handler calls
`CreateOrder` with an item list that has the length and the order of the
request's items and copies each `Name`, `Price` and `Quantity`, but puts the
request's `item_id` in field `ID` and leaves `ItemID` empty.  So an item with
a non-empty `item_id` goes through the identifier loop of `CreateOrder`
unchanged (no synthetic identifier), and two request items with the same
`item_id` give two items with the same `ID`, in the list passed and, when the
`item_id` is not empty, in the order built from it. -/
theorem C17_request_items (srv : orderapi.Server) (env : Env) (js : JSON) (w : World)
    (req : orderapi.CreateOrderRequest) :
    (srv.createOrder env js w req).1
      = (srv.service.CreateOrder env js w req.UserID req.RestaurantID
          (orderapi.requestItems req.Items)).1 ∧
    (orderapi.requestItems req.Items).length = req.Items.length ∧
    (∀ (i : Nat) (r : orderapi.CreateOrderItemRequest), req.Items[i]? = some r →
      (orderapi.requestItems req.Items)[i]?
        = some ({ ID := r.ItemID, ItemID := "", Name := r.Name, Price := r.Price,
                  Quantity := r.Quantity } : domain.OrderItem)) ∧
    (∀ (i : Nat) (r : orderapi.CreateOrderItemRequest), req.Items[i]? = some r → r.ItemID ≠ "" →
      (service.assignItemIDs env (orderapi.requestItems req.Items) w).1[i]?
        = some ({ ID := r.ItemID, ItemID := "", Name := r.Name, Price := r.Price,
                  Quantity := r.Quantity } : domain.OrderItem)) ∧
    (∀ (i j : Nat) (r r' : orderapi.CreateOrderItemRequest), req.Items[i]? = some r → req.Items[j]? = some r' → r.ItemID = r'.ItemID →
      ∃ a b : domain.OrderItem, (orderapi.requestItems req.Items)[i]? = some a ∧
        (orderapi.requestItems req.Items)[j]? = some b ∧ a.ID = b.ID) ∧
    (∀ (i j : Nat) (r r' : orderapi.CreateOrderItemRequest), req.Items[i]? = some r → req.Items[j]? = some r' → r.ItemID = r'.ItemID →
      r.ItemID ≠ "" →
      ∃ a b : domain.OrderItem, (service.assignItemIDs env (orderapi.requestItems req.Items) w).1[i]? = some a ∧
        (service.assignItemIDs env (orderapi.requestItems req.Items) w).1[j]? = some b ∧
        a.ID = r.ItemID ∧ b.ID = r.ItemID) := by
  have hmap := orderapi.requestItems_eq_map req.Items
  have hpass : ∀ (i : Nat) (r : orderapi.CreateOrderItemRequest), req.Items[i]? = some r →
      (orderapi.requestItems req.Items)[i]?
        = some ({ ID := r.ItemID, ItemID := "", Name := r.Name, Price := r.Price,
                  Quantity := r.Quantity } : domain.OrderItem) := by
    intro i r hr
    rw [hmap, List.getElem?_map, hr]
    rfl
  have hkeep : ∀ (i : Nat) (r : orderapi.CreateOrderItemRequest), req.Items[i]? = some r → r.ItemID ≠ "" →
      (service.assignItemIDs env (orderapi.requestItems req.Items) w).1[i]?
        = some ({ ID := r.ItemID, ItemID := "", Name := r.Name, Price := r.Price,
                  Quantity := r.Quantity } : domain.OrderItem) := by
    intro i r hr hne
    rw [service.assignItemIDs_getElem?, hpass i r hr]
    simp [hne]
  refine ⟨?_, ?_, hpass, hkeep, ?_, ?_⟩
  · unfold orderapi.Server.createOrder
    rcases hres : srv.service.CreateOrder env js w req.UserID req.RestaurantID
        (orderapi.requestItems req.Items) with ⟨w1, res⟩
    cases res <;> simp [hres]
  · rw [hmap, List.length_map]
  · intro i j r r' hr hr' hsame
    exact ⟨_, _, hpass i r hr, hpass j r' hr', hsame⟩
  · intro i j r r' hr hr' hsame hne
    have hne' : r'.ItemID ≠ "" := by
      rw [← hsame]
      exact hne
    exact ⟨_, _, hkeep i r hr hne, hkeep j r' hr' hne', rfl, hsame.symm⟩

/-- Witness of C17: a request that names catalog item "burger" twice; both
items reach the order with identifier "burger" and an empty `ItemID`. -/
theorem C17_request_items_witness :
    orderapi.requestItems Sample.request.Items
      = [ { ID := "burger", ItemID := "", Name := "Burger", Price := 50, Quantity := 1 },
          { ID := "burger", ItemID := "", Name := "Burger again", Price := 60,
            Quantity := 1 } ] ∧
    (service.assignItemIDs Sample.env (orderapi.requestItems Sample.request.Items)
        Sample.world).1[1]?
      = some ({ ID := "burger", ItemID := "", Name := "Burger again", Price := 60,
                Quantity := 1 } : domain.OrderItem) ∧
    (Sample.server.createOrder Sample.env Sample.json Sample.world Sample.request).1
      = (Sample.server.service.CreateOrder Sample.env Sample.json Sample.world "u1" "r1"
          (orderapi.requestItems Sample.request.Items)).1 :=
  have h := C17_request_items Sample.server Sample.env Sample.json Sample.world Sample.request
  ⟨rfl,
    h.2.2.2.1 1
      ({ ItemID := "burger", Name := "Burger again", Price := 60, Quantity := 1 } :
        orderapi.CreateOrderItemRequest) rfl
      (by decide),
    h.1⟩
